import Mathlib

/-!
# proxychanger: the tray indicator (`proxychangerlib/indicator.go`)

A shallow embedding of the `Indicator` type and its methods.  The indicator is
glue between the configuration, two periodic worker threads and the GTK menu,
so its behaviour is the sequence of calls it makes on those collaborators.
Every call on a collaborator whose body lives outside `indicator.go` is recorded
as an `Event` in a trace, in program order; what a collaborator answers
(an error, a handle, an imported proxy) is read from an `Env`.
Go pointers that may be nil are `Option`s; a nil dereference ends the method
in `Flow.panic`.
-/

namespace ProxyChanger

/-! ## Data model -/

/-- A user-visible text: either a Go string used as is, or a call
`MyGettextv(msgid, args...)`, kept symbolic because the translation catalogue
is not part of the source. -/
inductive Text where
  | lit (s : String)
  | gettext (msgid : String) (args : List String)
deriving DecidableEq, Repr

/-- The call `MyGettextv(msgid, args...)`. -/
def MyGettextv (msgid : String) (args : List String) : Text :=
  Text.gettext msgid args

/-- A `*Proxy`.  `addr` is the identity of the pointed-to object: Go compares
`*Proxy` values by address. -/
structure Proxy where
  addr : Nat
  Name : String
deriving DecidableEq, Repr

/-- The Go comparison `a == p` of a possibly nil `*Proxy` with a non-nil one. -/
def ptrEq (a : Option Proxy) (p : Proxy) : Bool :=
  match a with
  | some q => q.addr == p.addr
  | none => false

/-- Result of one hook script: the fields and the method `GetCombinedOutput()`
that the indicator reads. -/
structure ScriptResult where
  Error : Option String
  Code : Int
  CombinedOutput : String
deriving DecidableEq, Repr

/-- Result of one application adapter: what `Skipped()`, `Success()`,
`Application.GetSimpleName()`, `SkippedMessage` and `ErrorMessage` give. -/
structure ApplicationResult where
  Skipped : Bool
  Success : Bool
  SimpleName : String
  SkippedMessage : String
  ErrorMessage : String
deriving DecidableEq, Repr

/-- The `*GlobalProxyChangeResult` stored in `Config.LastExecutionResults`. -/
structure GlobalProxyChangeResult where
  Proxy : Option Proxy
  Reason : String
  ChangeScriptResult : Option ScriptResult
  ActivateScriptResult : Option ScriptResult
  Results : List ApplicationResult
deriving DecidableEq, Repr

/-- The fields of `*Configuration` that the indicator reads or writes. -/
structure Configuration where
  ActiveProxy : Option Proxy
  Proxies : List Proxy
  EnableAutoChangeByIp : Bool
  WhatToDoWhenNoIpMatches : String
  EnableUpdateCheck : Bool
  IndicatorAlreadyRun : Bool
  ShowCurrentProxyNameNextToIndicator : Bool
  LastExecutionResults : Option GlobalProxyChangeResult
deriving DecidableEq, Repr

/-- The callback a menu item is connected to on its "activate" signal. -/
inductive Handler where
  | OnProxyItemDeActivated
  | OnProxyItemActivated (p : Proxy)
  | ShowConfigurationWindow
  | ShowLastExecutionResults
  | XdgOpenFromMenuItem (target : String)
  | Quit
deriving DecidableEq, Repr

/-- Which GTK constructor made a menu item. -/
inductive ItemKind where
  | radio
  | separator
  | plain
deriving DecidableEq, Repr

/-- A GTK menu item as the indicator leaves it: `active` is the state written
by `SetActive(true)` and read by `GetActive()`, `sensitive` the argument of the
last `SetSensitive` call (`none` when it was never called), `handler` the
callback connected to "activate" (`none` when `Connect` failed or was not
attempted). -/
structure MenuItem where
  kind : ItemKind
  label : Text
  active : Bool
  sensitive : Option Bool
  handler : Option Handler
deriving DecidableEq, Repr

/-- The fields of `Indicator` that its methods read or write.  The worker
threads, the session bus and the app indicator are collaborators and show up
as events. -/
structure Indicator where
  Config : Configuration
  CurrentVersion : String
  TestMode : Bool
  NewVersionDetected : String
  CmdLogLevelSet : Bool
  NoProxyRadioItem : Option MenuItem
  NoProxyRadioItemHandle : Nat
deriving DecidableEq, Repr

/-- Levels of the `Log` calls. -/
inductive LogLevel where
  | error
  | info
  | debug
  | trace
deriving DecidableEq, Repr

/-- The `gtk.MessageType` passed to `goutils.ShowMessage`. -/
inductive MessageType where
  | MESSAGE_ERROR
  | MESSAGE_INFO
deriving DecidableEq, Repr

/-- One call on a collaborator, with its arguments.  `Save` carries the
configuration it is called on, as it is at the time of the call. -/
inductive Event where
  | Log (lvl : LogLevel) (fmt : String) (args : List String)
  | ShowMessage (kind : MessageType) (title : Text) (lines : List Text)
  | SetMenu (items : List MenuItem)
  | SetLabel (label : Text)
  | GetGnomeProxy
  | GetEnvironmentProxy
  | AddProxy (flag : Bool) (p : Proxy)
  | Save (cfg : Configuration) (description : Text)
  | ConfigAddListener
  | SetActiveProxy (p : Option Proxy) (reason : String) (force : Bool)
  | SetProxyForIps (ips : List String)
  | IpsAddListener
  | IpsCheck
  | IpsStart
  | IpsStop
  | UpdatesAddListener
  | UpdatesCheck
  | UpdatesStart
  | UpdatesStop
  | MainQuit
  | SendNotification (summary : Text) (body : Text)
  | IdleAddBuildMenu
deriving DecidableEq, Repr

/-- The fallible GTK calls of `BuildMenu`, one per call site; the two inside
the loop over `Config.Proxies` carry the loop index. -/
inductive GtkCall where
  | menuNew
  | noProxyNew
  | noProxyConnect
  | getGroup
  | proxyNew (k : Nat)
  | proxyConnect (k : Nat)
  | placeholderNew
  | separatorNew
  | configurationNew
  | configurationConnect
  | statusNew
  | statusConnect
  | versionNew
  | versionConnect
  | logNew
  | logConnect
  | helpNew
  | helpConnect
  | quitNew
  | quitConnect
deriving DecidableEq, Repr

/-- A proxy read from the desktop or from the environment
(`goutils.GetGnomeProxy`, `goutils.GetEnvironmentProxy`); `ToSimpleUrl()` is
all the indicator asks of it. -/
structure SystemProxy where
  SimpleUrl : String
deriving DecidableEq, Repr

/-- What the collaborators answer, and the package constants and methods that
are declared outside `indicator.go`.  An `Option String` is a Go `error`
(`none` is nil).  `AddProxy` is the effect of `Config.AddProxy(flag, p)` on
`Config.Proxies`. -/
structure Env where
  DEACTIVATE_PROXY : String
  LOG_PATH : String
  GetNumberOfErrors : GlobalProxyChangeResult → Nat
  gtkErr : GtkCall → Option String
  gtkHandle : GtkCall → Nat
  GetGnomeProxy : Option SystemProxy × Option String
  GetEnvironmentProxy : Option SystemProxy × Option String
  NewImportedProxy : SystemProxy → Text → String → Proxy
  AddProxy : List Proxy → Bool → Proxy → List Proxy
  IpsStart : Option String
  UpdatesStart : Option String
  SendNotification : Option String

/-- A Go `error` value returned by a method of the indicator: an error
received from a collaborator, or `errors.Wrap(cause, message)`. -/
inductive GoError where
  | plain (msg : String)
  | Wrap (cause : GoError) (message : Text)
deriving DecidableEq, Repr

/-- Program state between two statements of a method: the indicator, the
`RadioMenuItem` and `RadioMenuItemHandle` fields of the proxy objects (keyed
by the proxy address), and the calls made so far. -/
structure St where
  ind : Indicator
  proxyWidgets : List (Nat × MenuItem × Nat)
  trace : List Event
deriving DecidableEq, Repr

/-- Append one call to the trace. -/
def St.emit (s : St) (e : Event) : St :=
  { s with trace := s.trace ++ [e] }

/-- How a block of statements ends: it falls through to the next statement,
it executes `return err`, or it dereferences nil. -/
inductive Flow (σ : Type) where
  | next (s : σ)
  | ret (s : σ) (err : Option GoError)
  | panic (s : σ)
deriving Repr

/-- The state a block ends in, however it ends. -/
def Flow.state {σ : Type} : Flow σ → σ
  | Flow.next s => s
  | Flow.ret s _ => s
  | Flow.panic s => s

/-- Sequencing: the second block runs only when the first falls through. -/
def Flow.andThen {σ : Type} (f : Flow σ) (k : σ → Flow σ) : Flow σ :=
  match f with
  | Flow.next s => k s
  | Flow.ret s e => Flow.ret s e
  | Flow.panic s => Flow.panic s

/-- Number of events of a trace that satisfy `p`. -/
def countEv (p : Event → Bool) (tr : List Event) : Nat :=
  (tr.filter p).length

/-! ## Notifications and simple handlers -/

/-- The method `Indicator.ShowNotification`. -/
def ShowNotification (env : Env) (s : St) (title : Text) (text : Text) : St :=
  let s := s.emit (Event.SendNotification title text)
  match env.SendNotification with
  | some err =>
    (s.emit (Event.Log LogLevel.error "Error showing notification: %v." [err])).emit
      (Event.ShowMessage MessageType.MESSAGE_ERROR (MyGettextv "Error" [])
        [MyGettextv "Please review the LOG." []])
  | none => s

/-- The method `Indicator.OnProxyItemDeActivated`. -/
def OnProxyItemDeActivated (s : St) (item : MenuItem) : St :=
  if item.active then s.emit (Event.SetActiveProxy none "" true) else s

/-- The method `Indicator.OnProxyItemActivated`. -/
def OnProxyItemActivated (s : St) (item : MenuItem) (p : Proxy) : St :=
  if item.active then s.emit (Event.SetActiveProxy (some p) "" true) else s

/-- The method `Indicator.Quit`. -/
def Quit (s : St) : St :=
  ((s.emit Event.IpsStop).emit Event.UpdatesStop).emit Event.MainQuit

/-- The method `Indicator.OnIpsChanged`. -/
def OnIpsChanged (s : St) (ips : List String) : St :=
  (s.emit (Event.Log LogLevel.trace "New IPs notification received: %v" ips)).emit
    (Event.SetProxyForIps ips)

/-- The method `Indicator.OnEnableAutoChangeByIpChanged`. -/
def OnEnableAutoChangeByIpChanged (env : Env) (s : St) (newValue : Bool) : St :=
  let s :=
    if newValue then
      let s := s.emit (Event.Log LogLevel.debug "Starting IP check thread..." [])
      let s := s.emit Event.IpsStart
      match env.IpsStart with
      | some err =>
        ShowNotification env s (MyGettextv "Error" [])
          (MyGettextv "Error starting IP check thread: %v" [err])
      | none => s
    else
      let s := s.emit (Event.Log LogLevel.debug "Stopping IP check thread..." [])
      s.emit Event.IpsStop
  s.emit Event.IdleAddBuildMenu

/-- The method `Indicator.OnEnableUpdateCheckChanged`. -/
def OnEnableUpdateCheckChanged (env : Env) (s : St) (newValue : Bool) : St :=
  if newValue then
    let s := s.emit (Event.Log LogLevel.debug "Starting update check thread..." [])
    let s := s.emit Event.UpdatesStart
    match env.UpdatesStart with
    | some err =>
      ShowNotification env s (MyGettextv "Error" [])
        (MyGettextv "Error staring update check thread: %v" [err])
    | none => s
  else
    let s := s.emit (Event.Log LogLevel.debug "Stopping update check thread..." [])
    s.emit Event.UpdatesStop

/-- Recogniser of `Config.SetActiveProxy` calls. -/
def Event.isSetActiveProxy : Event → Bool
  | Event.SetActiveProxy _ _ _ => true
  | _ => false

/-- Recogniser of `Config.SetProxyForIps` calls. -/
def Event.isSetProxyForIps : Event → Bool
  | Event.SetProxyForIps _ => true
  | _ => false

/-- Recogniser of `notify.SendNotification` calls, one per `ShowNotification`. -/
def Event.isSendNotification : Event → Bool
  | Event.SendNotification _ _ => true
  | _ => false

/-- Recogniser of `Config.AddProxy` calls. -/
def Event.isAddProxy : Event → Bool
  | Event.AddProxy _ _ => true
  | _ => false

/-- Recogniser of `Config.Save` calls. -/
def Event.isSave : Event → Bool
  | Event.Save _ _ => true
  | _ => false

/-! ## The label and the execution report -/

/-- The method `Indicator.UpdateLabel`. -/
def UpdateLabel (env : Env) (s : St) : St :=
  if s.ind.Config.ShowCurrentProxyNameNextToIndicator then
    match s.ind.Config.LastExecutionResults with
    | some n =>
      match n.Proxy with
      | some p =>
        if env.GetNumberOfErrors n > 0 then
          s.emit (Event.SetLabel (MyGettextv "%v %v" ["❗", p.Name]))
        else
          s.emit (Event.SetLabel (Text.lit p.Name))
      | none =>
        if env.GetNumberOfErrors n > 0 then
          s.emit (Event.SetLabel (MyGettextv "%v No proxy" ["❗"]))
        else
          s.emit (Event.SetLabel (MyGettextv "No proxy" []))
    | none =>
      match s.ind.Config.ActiveProxy with
      | some p => s.emit (Event.SetLabel (Text.lit p.Name))
      | none => s.emit (Event.SetLabel (MyGettextv "No proxy" []))
  else
    s.emit (Event.SetLabel (Text.lit ""))

/-- The line of `ShowLastExecutionResults` for the script run before the proxy
change. -/
def changeScriptLine (changeScriptResult : Option ScriptResult) : Text :=
  match changeScriptResult with
  | some c =>
    match c.Error with
    | some err => MyGettextv "Before proxy change script: ERROR (%v)" [err]
    | none =>
      if c.Code != 0 then
        MyGettextv "Before proxy change script: WARNING (%v, %v)"
          [toString c.Code, c.CombinedOutput]
      else
        MyGettextv "Before proxy change script: OK (%v)" [c.CombinedOutput]
  | none => MyGettextv "Before proxy change script: <i>not configured</i>" []

/-- The line of `ShowLastExecutionResults` for the activation script.  The
second test reads `changeScriptResult.Code`, as the source does; `none` is the
nil dereference it makes when no change script result exists. -/
def activateScriptLine (changeScriptResult activateScriptResult : Option ScriptResult) :
    Option Text :=
  match activateScriptResult with
  | some a =>
    match a.Error with
    | some err => some (MyGettextv "Activate proxy script: ERROR (%v)" [err])
    | none =>
      match changeScriptResult with
      | none => none
      | some c =>
        if c.Code != 0 then
          some (MyGettextv "Activate proxy script: WARNING (%v, %v)"
            [toString a.Code, a.CombinedOutput])
        else
          some (MyGettextv "Activate proxy script: OK (%v)" [a.CombinedOutput])
  | none => some (MyGettextv "Activate proxy script: <i>not configured</i>" [])

/-- The line of `ShowLastExecutionResults` for one application result. -/
def applicationLine (r : ApplicationResult) : Text :=
  if r.Skipped then
    MyGettextv "%v: Skipped (%v)" [r.SimpleName, r.SkippedMessage]
  else if r.Success then
    MyGettextv "%v: OK" [r.SimpleName]
  else
    MyGettextv "%v: ERROR: %v" [r.SimpleName, r.ErrorMessage]

/-- The slice `lines` that `ShowLastExecutionResults` builds; `none` when
building it dereferences nil. -/
def reportLines (cfg : Configuration) : Option (List Text) :=
  match cfg.LastExecutionResults with
  | some n =>
    match activateScriptLine n.ChangeScriptResult n.ActivateScriptResult with
    | none => none
    | some l2 => some ([changeScriptLine n.ChangeScriptResult] ++ [l2] ++ n.Results.map applicationLine)
  | none => some [MyGettextv "No proxy set yet." []]

/-- The method `Indicator.ShowLastExecutionResults`; the body shown is
`strings.Join(lines, "\n")`, kept as the list of lines. -/
def ShowLastExecutionResults (s : St) : Flow St :=
  match reportLines s.ind.Config with
  | none => Flow.panic s
  | some lines =>
    Flow.ret (s.emit (Event.ShowMessage MessageType.MESSAGE_INFO (Text.lit "Execution results") lines)) none

/-! ## Building the menu -/

/-- Local state of `BuildMenu`: the program state and the items appended to
the local `menu` so far. -/
structure MenuSt where
  st : St
  menu : List MenuItem
deriving DecidableEq, Repr

/-- The two statements every failed GTK call of `BuildMenu` is answered with:
`Log.Errorf("Error building GUI: %v.", err)` and the error dialog. -/
def guiError (m : MenuSt) (err : String) : MenuSt :=
  let s := m.st.emit (Event.Log LogLevel.error "Error building GUI: %v." [err])
  let s := s.emit (Event.ShowMessage MessageType.MESSAGE_ERROR (MyGettextv "Error" [])
    [MyGettextv "Please review the LOG." []])
  { m with st := s }

/-- The call `menu.Append(item)`. -/
def MenuSt.append (m : MenuSt) (item : MenuItem) : MenuSt :=
  { m with menu := m.menu ++ [item] }

/-- The test `i.Config.EnableAutoChangeByIp && i.Config.WhatToDoWhenNoIpMatches == DEACTIVATE_PROXY`. -/
def autoDeactivate (env : Env) (cfg : Configuration) : Bool :=
  cfg.EnableAutoChangeByIp && (cfg.WhatToDoWhenNoIpMatches == env.DEACTIVATE_PROXY)

/-- A menu item fresh from its GTK constructor. -/
def newItem (kind : ItemKind) (label : Text) : MenuItem :=
  { kind := kind, label := label, active := false, sensitive := none, handler := none }

/-- Part of `BuildMenu`: the "No proxy" radio item (source lines 81 to 104).  The
`SetSensitive` call goes through the field `i.NoProxyRadioItem`: after a
successful `Connect` that is the item just appended, after a failed one it is
whatever an earlier `BuildMenu` left there, nil on the first build. -/
def buildNoProxyItem (env : Env) (m : MenuSt) : Flow MenuSt :=
  match env.gtkErr GtkCall.noProxyNew with
  | some err => Flow.ret (guiError m err) none
  | none =>
    let item := newItem ItemKind.radio (MyGettextv "No proxy" [])
    let item := if m.st.ind.Config.ActiveProxy.isNone then { item with active := true } else item
    let sens := !(autoDeactivate env m.st.ind.Config)
    match env.gtkErr GtkCall.noProxyConnect with
    | some err =>
      let m := guiError m err
      match m.st.ind.NoProxyRadioItem with
      | none => Flow.panic m
      | some old =>
        Flow.next { m with st := { m.st with ind := { m.st.ind with
          NoProxyRadioItem := some { old with sensitive := some sens } } } }
    | none =>
      let item := { item with handler := some Handler.OnProxyItemDeActivated, sensitive := some sens }
      let m := m.append item
      Flow.next { m with st := { m.st with ind := { m.st.ind with
        NoProxyRadioItem := some item,
        NoProxyRadioItemHandle := env.gtkHandle GtkCall.noProxyConnect } } }

/-- Part of `BuildMenu`: the loop over `Config.Proxies` (source lines 114 to 139),
from index `k` on.  An item whose `Connect` failed is not appended, so the
`SetSensitive` call on it leaves nothing behind. -/
def buildProxyItems (env : Env) : Nat → List Proxy → MenuSt → Flow MenuSt
  | _, [], m => Flow.next m
  | k, p :: ps, m =>
    match env.gtkErr (GtkCall.proxyNew k) with
    | some err => Flow.ret (guiError m err) none
    | none =>
      let item := newItem ItemKind.radio (Text.lit p.Name)
      let item := if ptrEq m.st.ind.Config.ActiveProxy p then { item with active := true } else item
      match env.gtkErr (GtkCall.proxyConnect k) with
      | some err => buildProxyItems env (k + 1) ps (guiError m err)
      | none =>
        let item := { item with handler := some (Handler.OnProxyItemActivated p),
                                sensitive := some (!(autoDeactivate env m.st.ind.Config)) }
        let m := m.append item
        buildProxyItems env (k + 1) ps
          { m with st := { m.st with proxyWidgets :=
              (p.addr, item, env.gtkHandle (GtkCall.proxyConnect k)) ::
                m.st.proxyWidgets.filter (fun w => w.1 != p.addr) } }

/-- Part of `BuildMenu`: the proxy section (source lines 113 to 150): the loop, or the
placeholder when there is no proxy. -/
def buildProxySection (env : Env) (m : MenuSt) : Flow MenuSt :=
  if m.st.ind.Config.Proxies.length > 0 then
    buildProxyItems env 0 m.st.ind.Config.Proxies m
  else
    match env.gtkErr GtkCall.placeholderNew with
    | some err => Flow.ret (guiError m err) none
    | none =>
      Flow.next (m.append
        { newItem ItemKind.radio (MyGettextv "No proxies defined" []) with sensitive := some false })

/-- Part of `BuildMenu`: the separator (source lines 152 to 158): a failure is
reported and the build goes on. -/
def buildSeparator (env : Env) (m : MenuSt) : Flow MenuSt :=
  match env.gtkErr GtkCall.separatorNew with
  | some err => Flow.next (guiError m err)
  | none => Flow.next (m.append (newItem ItemKind.separator (Text.lit "")))

/-- Part of `BuildMenu`: the pattern shared by the "Configuration", new version,
"Show LOG", "Help" and "Quit" items: a failed constructor returns, a failed
`Connect` is reported and the item is appended all the same. -/
def buildPlainItem (env : Env) (mk conn : GtkCall) (label : Text) (h : Handler)
    (m : MenuSt) : Flow MenuSt :=
  match env.gtkErr mk with
  | some err => Flow.ret (guiError m err) none
  | none =>
    match env.gtkErr conn with
    | some err => Flow.next ((guiError m err).append (newItem ItemKind.plain label))
    | none => Flow.next (m.append { newItem ItemKind.plain label with handler := some h })

/-- Part of `BuildMenu`: the label of the status item (source lines 174 to 181). -/
def statusLabel (env : Env) (cfg : Configuration) : Text :=
  match cfg.LastExecutionResults with
  | some n =>
    if env.GetNumberOfErrors n > 0 then MyGettextv "%v Status" ["✖"]
    else MyGettextv "%v Status" ["✔"]
  | none => MyGettextv "Status" []

/-- Part of `BuildMenu`: the status item (source lines 174 to 198). -/
def buildStatusItem (env : Env) (m : MenuSt) : Flow MenuSt :=
  let itemLabel := statusLabel env m.st.ind.Config
  match env.gtkErr GtkCall.statusNew with
  | some err => Flow.ret (guiError m err) none
  | none =>
    match m.st.ind.Config.LastExecutionResults with
    | some _ =>
      match env.gtkErr GtkCall.statusConnect with
      | some err => Flow.next ((guiError m err).append (newItem ItemKind.plain itemLabel))
      | none =>
        Flow.next (m.append
          { newItem ItemKind.plain itemLabel with handler := some Handler.ShowLastExecutionResults })
    | none =>
      Flow.next (m.append { newItem ItemKind.plain itemLabel with sensitive := some false })

/-- Part of `BuildMenu`: the new version item (source lines 200 to 214). -/
def buildVersionItem (env : Env) (m : MenuSt) : Flow MenuSt :=
  if m.st.ind.NewVersionDetected != "" then
    buildPlainItem env GtkCall.versionNew GtkCall.versionConnect
      (MyGettextv "New version %v released, click to update" [m.st.ind.NewVersionDetected])
      (Handler.XdgOpenFromMenuItem "https://github.com/okelet/proxychanger/wiki/Install-Update") m
  else
    Flow.next m

/-- Part of `BuildMenu`: the creation of the menu (source lines 74 to 79). -/
def buildNewMenu (env : Env) (m : MenuSt) : Flow MenuSt :=
  match env.gtkErr GtkCall.menuNew with
  | some err => Flow.ret (guiError m err) none
  | none => Flow.next { m with menu := [] }

/-- Part of `BuildMenu`: the call `noProxyRadioItem.GetGroup()` (source lines 106 to 111). -/
def buildGetGroup (env : Env) (m : MenuSt) : Flow MenuSt :=
  match env.gtkErr GtkCall.getGroup with
  | some err => Flow.ret (guiError m err) none
  | none => Flow.next m

/-- Part of `BuildMenu`: the "Help" item (source lines 230 to 242). -/
def buildHelpItem (env : Env) (m : MenuSt) : Flow MenuSt :=
  buildPlainItem env GtkCall.helpNew GtkCall.helpConnect (MyGettextv "Help" [])
    (Handler.XdgOpenFromMenuItem
      ("https://github.com/okelet/proxychanger?currentVersion=" ++ m.st.ind.CurrentVersion)) m

/-- Part of `BuildMenu`: the end (source lines 258 to 261): `menu.ShowAll()`,
`i.AppIndicator.SetMenu(menu)`, recorded as the one event `SetMenu`, and
`return nil`. -/
def buildSetMenu (m : MenuSt) : Flow MenuSt :=
  Flow.ret { m with st := m.st.emit (Event.SetMenu m.menu) } none

/-- Run blocks one after the other, as long as each falls through. -/
def Flow.seq {σ : Type} : List (σ → Flow σ) → σ → Flow σ
  | [], s => Flow.next s
  | k :: ks, s => (k s).andThen (Flow.seq ks)

/-- The statements of `BuildMenu`, in source order. -/
def buildMenuSteps (env : Env) : List (MenuSt → Flow MenuSt) :=
  [ buildNewMenu env,
    buildNoProxyItem env,
    buildGetGroup env,
    buildProxySection env,
    buildSeparator env,
    buildPlainItem env GtkCall.configurationNew GtkCall.configurationConnect
      (MyGettextv "Configuration" []) Handler.ShowConfigurationWindow,
    buildStatusItem env,
    buildVersionItem env,
    buildPlainItem env GtkCall.logNew GtkCall.logConnect
      (MyGettextv "Show LOG" []) (Handler.XdgOpenFromMenuItem env.LOG_PATH),
    buildHelpItem env,
    buildPlainItem env GtkCall.quitNew GtkCall.quitConnect (MyGettextv "Quit" []) Handler.Quit,
    buildSetMenu ]

/-- Forget the local menu of a finished `BuildMenu`. -/
def Flow.toSt : Flow MenuSt → Flow St
  | Flow.next m => Flow.next m.st
  | Flow.ret m e => Flow.ret m.st e
  | Flow.panic m => Flow.panic m.st

/-- The method `Indicator.BuildMenu`. -/
def BuildMenu (env : Env) (s : St) : Flow St :=
  (Flow.seq (buildMenuSteps env) { st := s, menu := [] }).toSt

/-! ## Startup -/

/-- Part of `Run`: importing one system proxy (source lines 289 to 291 and 298 to
300): log, build the proxy, add it. -/
def importProxy (env : Env) (s : St) (found : SystemProxy) (logFmt : String) (name : Text) :
    St × Option Proxy :=
  let s := s.emit (Event.Log LogLevel.info logFmt [found.SimpleUrl])
  let p := env.NewImportedProxy found name ""
  let s := s.emit (Event.AddProxy false p)
  ({ s with ind := { s.ind with Config := { s.ind.Config with
      Proxies := env.AddProxy s.ind.Config.Proxies false p } } }, some p)

/-- Part of `Run`: the first-run import (source lines 281 to 305); the second
component is the local `p`. -/
def runImport (env : Env) (s : St) : St × Option Proxy :=
  if !s.ind.Config.IndicatorAlreadyRun then
    let s := s.emit Event.GetGnomeProxy
    let s := match env.GetGnomeProxy.2 with
      | some err => s.emit (Event.Log LogLevel.error "Error loading gnome proxy: %v" [err])
      | none => s
    let sp : St × Option Proxy :=
      match env.GetGnomeProxy.1 with
      | some gnomeProxy =>
        importProxy env s gnomeProxy "Importing gnome proxy %v" (MyGettextv "Gnome imported" [])
      | none =>
        let s := s.emit Event.GetEnvironmentProxy
        let s := match env.GetEnvironmentProxy.2 with
          | some err => s.emit (Event.Log LogLevel.error "Error loading environment proxy: %v" [err])
          | none => s
        match env.GetEnvironmentProxy.1 with
        | some envProxy =>
          importProxy env s envProxy "Importing environment proxy %v"
            (MyGettextv "Environment imported" [])
        | none => (s, none)
    let s := sp.1
    let s := { s with ind := { s.ind with Config := { s.ind.Config with IndicatorAlreadyRun := true } } }
    let s := s.emit (Event.Save s.ind.Config
      (MyGettextv "Initial indicator configuration and proxy import" []))
    (s, sp.2)
  else
    (s, none)

/-- Part of `Run`: the activation at startup (source lines 316 to 323). -/
def runSetProxy (s : St) (setProxyNow : Bool) (p : Option Proxy) : St :=
  if setProxyNow then
    match p with
    | some q => s.emit (Event.SetActiveProxy (some q) "Startup" true)
    | none => s.emit (Event.SetActiveProxy s.ind.Config.ActiveProxy "Startup" false)
  else
    s

/-- Part of `Run`: starting the IP check thread (source lines 325 to 333). -/
def runStartIps (env : Env) (s : St) : Flow St :=
  let s := s.emit Event.IpsAddListener
  if s.ind.Config.EnableAutoChangeByIp then
    let s := s.emit Event.IpsCheck
    let s := s.emit Event.IpsStart
    match env.IpsStart with
    | some err =>
      Flow.ret s (some (GoError.Wrap (GoError.plain err) (MyGettextv "Error starting IP check thread" [])))
    | none => Flow.next s
  else
    Flow.next s

/-- Part of `Run`: starting the update check thread (source lines 335 to 344). -/
def runStartUpdates (env : Env) (s : St) : Flow St :=
  let s := s.emit Event.UpdatesAddListener
  if s.ind.Config.EnableUpdateCheck then
    let s := if s.ind.TestMode then s.emit Event.UpdatesCheck else s
    let s := s.emit Event.UpdatesStart
    match env.UpdatesStart with
    | some err =>
      Flow.ret s (some (GoError.Wrap (GoError.plain err) (MyGettextv "Error starting update check thread" [])))
    | none => Flow.next s
  else
    Flow.next s

/-- Part of `Run`: the call of `BuildMenu` and the test of its result (source lines
307 to 310). -/
def runBuildMenu (env : Env) (s : St) : Flow St :=
  match BuildMenu env s with
  | Flow.panic s => Flow.panic s
  | Flow.ret s (some err) =>
    Flow.ret s (some (GoError.Wrap err (Text.lit "Error building indicator menu")))
  | Flow.ret s none => Flow.next s
  | Flow.next s => Flow.next s

/-- Part of `Run`: the statements after the call of `BuildMenu` (source lines 312 to
346), with `p` the local set by the first-run import. -/
def runTailSteps (env : Env) (setProxyNow : Bool) (p : Option Proxy) : List (St → Flow St) :=
  [ fun s => Flow.next (UpdateLabel env s),
    fun s => Flow.next (s.emit Event.ConfigAddListener),
    fun s => Flow.next (runSetProxy s setProxyNow p),
    runStartIps env,
    runStartUpdates env,
    fun s => Flow.ret s none ]

/-- The method `Indicator.Run`. -/
def Run (env : Env) (s : St) (setProxyNow : Bool) : Flow St :=
  let sp := runImport env s
  Flow.seq (runBuildMenu env :: runTailSteps env setProxyNow sp.2) sp.1

/-! ## Reading traces -/

/-- The calls made between a trace and a later trace that extends it. -/
def newEvents (before after : List Event) : List Event :=
  after.drop before.length

/-- A text that carries the warning mark of the indicator label. -/
def Text.hasWarningMark : Text → Bool
  | Text.gettext _ (a :: _) => a == "❗"
  | _ => false

/-- The label of the claim on `UpdateLabel`, in its words: the name of the
proxy, or "No proxy" when there is none, with the warning mark in front when
`warn` is set. -/
def markedName (warn : Bool) (p : Option Proxy) : Text :=
  match warn, p with
  | false, some q => Text.lit q.Name
  | false, none => MyGettextv "No proxy" []
  | true, some q => MyGettextv "%v %v" ["❗", q.Name]
  | true, none => MyGettextv "%v No proxy" ["❗"]

/-- The three labels a status item can have. -/
def isStatusLabel (t : Text) : Bool :=
  t == MyGettextv "Status" [] || t == MyGettextv "%v Status" ["✖"] ||
    t == MyGettextv "%v Status" ["✔"]

/-- Events of `BuildMenu`: log lines, dialogs and the final `SetMenu`. -/
def Event.isGui : Event → Bool
  | Event.Log _ _ _ => true
  | Event.ShowMessage _ _ _ => true
  | Event.SetMenu _ => true
  | _ => false

/-- The menus handed to the app indicator in a trace. -/
def menusSet : List Event → List (List MenuItem)
  | [] => []
  | Event.SetMenu items :: rest => items :: menusSet rest
  | _ :: rest => menusSet rest

/-! ## Example inputs -/

/-- An environment in which no collaborator fails and nothing is imported. -/
def quietEnv : Env :=
  { DEACTIVATE_PROXY := "deactivate",
    LOG_PATH := "/tmp/proxychanger.log",
    GetNumberOfErrors := fun _ => 0,
    gtkErr := fun _ => none,
    gtkHandle := fun _ => 1,
    GetGnomeProxy := (none, none),
    GetEnvironmentProxy := (none, none),
    NewImportedProxy := fun _ _ _ => { addr := 100, Name := "imported" },
    AddProxy := fun ps _ p => ps ++ [p],
    IpsStart := none,
    UpdatesStart := none,
    SendNotification := none }

/-- A configuration that has run before, with one proxy, active, and both
periodic checks enabled. -/
def sampleConfig : Configuration :=
  { ActiveProxy := some { addr := 1, Name := "office" },
    Proxies := [{ addr := 1, Name := "office" }],
    EnableAutoChangeByIp := true,
    WhatToDoWhenNoIpMatches := "nothing",
    EnableUpdateCheck := true,
    IndicatorAlreadyRun := true,
    ShowCurrentProxyNameNextToIndicator := true,
    LastExecutionResults := none }

/-- A freshly constructed indicator over `sampleConfig`, with an empty trace. -/
def sampleState : St :=
  { ind := { Config := sampleConfig, CurrentVersion := "1.0", TestMode := false,
             NewVersionDetected := "", CmdLogLevelSet := false,
             NoProxyRadioItem := none, NoProxyRadioItemHandle := 0 },
    proxyWidgets := [],
    trace := [] }

/-- A configuration whose last activation ran an activation script, with
success, and no script before the change. -/
def noChangeScriptConfig : Configuration :=
  { sampleConfig with
    LastExecutionResults := some
      { Proxy := none, Reason := "",
        ChangeScriptResult := none,
        ActivateScriptResult := some { Error := none, Code := 0, CombinedOutput := "" },
        Results := [] } }

/-- A configuration whose last activation ran both scripts: the one before the
change ended with code 0, the activation script with code 3. -/
def failedActivateScriptConfig : Configuration :=
  { sampleConfig with
    LastExecutionResults := some
      { Proxy := none, Reason := "",
        ChangeScriptResult := some { Error := none, Code := 0, CombinedOutput := "" },
        ActivateScriptResult := some { Error := none, Code := 3, CombinedOutput := "boom" },
        Results := [] } }

/-- The label the claim on `UpdateLabel` describes, in its words. -/
def labelSpec (env : Env) (cfg : Configuration) : Text :=
  if cfg.ShowCurrentProxyNameNextToIndicator then
    match cfg.LastExecutionResults with
    | some n => markedName (decide (env.GetNumberOfErrors n > 0)) n.Proxy
    | none => markedName false cfg.ActiveProxy
  else
    Text.lit ""

/-! ## Invariants of `BuildMenu` -/

/-- Recogniser of the final `SetMenu` call. -/
def Event.isSetMenu : Event → Bool
  | Event.SetMenu _ => true
  | _ => false

/-- The items of a menu that carry a status label. -/
def statusItems (menu : List MenuItem) : List MenuItem :=
  menu.filter (fun it => isStatusLabel it.label)

/-- Whether a block ended in a nil dereference. -/
def Flow.isPanic {σ : Type} : Flow σ → Bool
  | Flow.panic _ => true
  | _ => false

/-- Whether a block ended in `return err` with a non-nil error. -/
def Flow.returnsError {σ : Type} : Flow σ → Bool
  | Flow.ret _ (some _) => true
  | _ => false

/-- The one way `BuildMenu` dereferences nil: the menu and the "No proxy" item
are created, connecting the item fails, and no earlier build left an item in
`i.NoProxyRadioItem`. -/
def menuCrash (env : Env) (i : Indicator) : Bool :=
  (env.gtkErr GtkCall.menuNew).isNone && (env.gtkErr GtkCall.noProxyNew).isNone &&
    (env.gtkErr GtkCall.noProxyConnect).isSome && i.NoProxyRadioItem.isNone

/-- What holds of the local state of `BuildMenu` before its last statement,
relative to the state `s0` it was called in: the configuration, the test mode,
the version fields and the stored "No proxy" item presence are those of `s0`
or later writes of `BuildMenu`; the calls made since are log lines and dialogs;
the status items of the menu so far are `X`. -/
def MenuInv (s0 : St) (X : List MenuItem) (m : MenuSt) : Prop :=
  m.st.ind.Config = s0.ind.Config ∧ m.st.ind.TestMode = s0.ind.TestMode ∧
  (∃ evs, m.st.trace = s0.trace ++ evs ∧
    ∀ e ∈ evs, e.isGui = true ∧ e.isSetMenu = false) ∧
  statusItems m.menu = X

/-- A block of `BuildMenu` that keeps `MenuInv`, returns no error and does not
dereference nil. -/
def MenuGood (s0 : St) (X : List MenuItem) (f : Flow MenuSt) : Prop :=
  MenuInv s0 X f.state ∧ f.returnsError = false ∧ f.isPanic = false

/-- The sensitivity `BuildMenu` leaves on the status item: switched off when
there are no results, never touched otherwise. -/
def statusSensitive (cfg : Configuration) : Option Bool :=
  match cfg.LastExecutionResults with
  | some _ => none
  | none => some false

/-- How the part of `BuildMenu` after the "No proxy" item ends: without error
and without nil dereference, and either before the last statement, with
`MenuInv`, or in the last statement, which hands over a menu whose one status
item has the label and the sensitivity computed from the configuration. -/
def MenuOutcome (env : Env) (s0 : St) (f : Flow MenuSt) : Prop :=
  f.returnsError = false ∧ f.isPanic = false ∧
  ((∃ X, MenuInv s0 X f.state) ∨
   (∃ m item, f = Flow.ret { m with st := m.st.emit (Event.SetMenu m.menu) } none ∧
      MenuInv s0 [item] m ∧ item.label = statusLabel env s0.ind.Config ∧
      item.sensitive = statusSensitive s0.ind.Config))

/-- What `BuildMenu`, called in `s0`, leaves in `s1`: the configuration and the
test mode untouched; calls that are log lines, dialogs and `SetMenu`; and in
every menu handed over exactly one status item, with the label and the
sensitivity computed from the configuration. -/
def BuildFacts (env : Env) (s0 s1 : St) : Prop :=
  s1.ind.Config = s0.ind.Config ∧ s1.ind.TestMode = s0.ind.TestMode ∧
  ∃ evs, s1.trace = s0.trace ++ evs ∧ (∀ e ∈ evs, e.isGui = true) ∧
    ∀ menu ∈ menusSet evs, ∃ item, statusItems menu = [item] ∧
      item.label = statusLabel env s0.ind.Config ∧
      item.sensitive = statusSensitive s0.ind.Config

/-! ## The menu when no GTK call fails -/

/-- The GTK calls `BuildMenu` can make on a configuration with `n` proxies. -/
def gtkCalls (n : Nat) : List GtkCall :=
  [GtkCall.menuNew, GtkCall.noProxyNew, GtkCall.noProxyConnect, GtkCall.getGroup,
    GtkCall.placeholderNew, GtkCall.separatorNew, GtkCall.configurationNew,
    GtkCall.configurationConnect, GtkCall.statusNew, GtkCall.statusConnect,
    GtkCall.versionNew, GtkCall.versionConnect, GtkCall.logNew, GtkCall.logConnect,
    GtkCall.helpNew, GtkCall.helpConnect, GtkCall.quitNew, GtkCall.quitConnect] ++
  (List.range n).map GtkCall.proxyNew ++ (List.range n).map GtkCall.proxyConnect

/-- No widget construction error: none of the GTK calls of `BuildMenu` fails. -/
def noGtkErrors (env : Env) (n : Nat) : Bool :=
  (gtkCalls n).all (fun c => (env.gtkErr c).isNone)

/-- The radio items of a menu, in menu order. -/
def radioItems (menu : List MenuItem) : List MenuItem :=
  menu.filter (fun it => it.kind == ItemKind.radio)

/-- The "No proxy" radio item of the claim on the menu: active when there is no
active proxy, insensitive when automatic change by IP is enabled with the
no-match action `DEACTIVATE_PROXY`, sensitive otherwise. -/
def noProxyItemSpec (env : Env) (cfg : Configuration) : MenuItem :=
  { kind := ItemKind.radio,
    label := MyGettextv "No proxy" [],
    active := cfg.ActiveProxy.isNone,
    sensitive := some (!(cfg.EnableAutoChangeByIp &&
      (cfg.WhatToDoWhenNoIpMatches == env.DEACTIVATE_PROXY))),
    handler := some Handler.OnProxyItemDeActivated }

/-- The radio item of proxy `p` of the claim on the menu: labelled with the
proxy name, active when `p` is the active proxy, insensitive under the same
condition as the "No proxy" item. -/
def proxyItemSpec (env : Env) (cfg : Configuration) (p : Proxy) : MenuItem :=
  { kind := ItemKind.radio,
    label := Text.lit p.Name,
    active := ptrEq cfg.ActiveProxy p,
    sensitive := some (!(cfg.EnableAutoChangeByIp &&
      (cfg.WhatToDoWhenNoIpMatches == env.DEACTIVATE_PROXY))),
    handler := some (Handler.OnProxyItemActivated p) }

/-- The placeholder of the claim on the menu: always insensitive, never
connected. -/
def placeholderItemSpec : MenuItem :=
  { kind := ItemKind.radio,
    label := MyGettextv "No proxies defined" [],
    active := false,
    sensitive := some false,
    handler := none }

/-- The radio items of the claim on the menu: the "No proxy" item, then one
item per proxy in list order, or the placeholder when there is no proxy. -/
def radioItemsSpec (env : Env) (cfg : Configuration) : List MenuItem :=
  noProxyItemSpec env cfg ::
    (match cfg.Proxies with
     | [] => [placeholderItemSpec]
     | p :: ps => (p :: ps).map (proxyItemSpec env cfg))

/-- What holds of the local state of `BuildMenu` while no GTK call has failed:
the configuration is that of the calling state `s0`, no call has been made, and
the radio items of the menu so far are `R`. -/
def MenuOk (s0 : St) (R : List MenuItem) (m : MenuSt) : Prop :=
  m.st.ind.Config = s0.ind.Config ∧ m.st.trace = s0.trace ∧ radioItems m.menu = R

/-- A block of `BuildMenu` that falls through, taking `MenuOk` with radio items
`R` to `MenuOk` with radio items `R1`. -/
def StepOk (s0 : St) (R R1 : List MenuItem) (k : MenuSt → Flow MenuSt) : Prop :=
  ∀ m, MenuOk s0 R m → ∃ m1, k m = Flow.next m1 ∧ MenuOk s0 R1 m1

/-! ## Reading `Run` -/

/-- The proxy `Run` imports on a first run: the desktop proxy when there is
one, else the environment proxy when there is one; none when the indicator has
run before. -/
def importedProxy (env : Env) (cfg : Configuration) : Option Proxy :=
  if cfg.IndicatorAlreadyRun then none
  else
    match env.GetGnomeProxy.1 with
    | some g => some (env.NewImportedProxy g (MyGettextv "Gnome imported" []) "")
    | none =>
      match env.GetEnvironmentProxy.1 with
      | some e => some (env.NewImportedProxy e (MyGettextv "Environment imported" []) "")
      | none => none

/-- The configuration a first run saves: the imported proxy added, the flag
`IndicatorAlreadyRun` set. -/
def savedConfig (env : Env) (cfg : Configuration) : Configuration :=
  { cfg with
    Proxies := (match importedProxy env cfg with
      | some p => env.AddProxy cfg.Proxies false p
      | none => cfg.Proxies),
    IndicatorAlreadyRun := true }

/-- Recogniser of the two calls of the first-run import on the configuration. -/
def Event.isImportCall (e : Event) : Bool :=
  e.isAddProxy || e.isSave

/-- Recogniser of the calls on `CheckUpdatesThread`. -/
def Event.isUpdatesCall : Event → Bool
  | Event.UpdatesAddListener => true
  | Event.UpdatesCheck => true
  | Event.UpdatesStart => true
  | Event.UpdatesStop => true
  | _ => false

/-- Whether every `Save` of a trace is called on a configuration whose flag
`IndicatorAlreadyRun` is set. -/
def savesCarryFlag (tr : List Event) : Bool :=
  tr.all (fun e => match e with
    | Event.Save cfg _ => cfg.IndicatorAlreadyRun
    | _ => true)

/-- The error a block returns, nil when it does not end in `return err`. -/
def Flow.error {σ : Type} : Flow σ → Option GoError
  | Flow.ret _ e => e
  | _ => none

/-- The call of `SetActiveProxy` that `Run` makes for `setProxyNow`: forced on
the proxy just imported, unforced on the active proxy when nothing was
imported. -/
def startupCall (cfg : Configuration) (p : Option Proxy) : Event :=
  match p with
  | some q => Event.SetActiveProxy (some q) "Startup" true
  | none => Event.SetActiveProxy cfg.ActiveProxy "Startup" false

/-- The calls `Run` makes on `CheckUpdatesThread` once the IP check thread is
dealt with: always `AddListener`; `Start` when update checks are enabled, after
a `Check` in test mode. -/
def updatesCalls (i : Indicator) : List Event :=
  Event.UpdatesAddListener ::
    (if i.Config.EnableUpdateCheck then
      (if i.TestMode then [Event.UpdatesCheck] else []) ++ [Event.UpdatesStart]
     else [])

/-- Whether `Run` stops at the IP check thread: automatic change by IP is
enabled and `CheckIpsThread.Start()` fails. -/
def ipsStartFails (env : Env) (cfg : Configuration) : Bool :=
  cfg.EnableAutoChangeByIp && env.IpsStart.isSome

/-- The error `Run` returns when `CheckIpsThread.Start()` fails with `err`. -/
def ipsStartError (err : String) : GoError :=
  GoError.Wrap (GoError.plain err) (MyGettextv "Error starting IP check thread" [])

/-- The error `Run` returns when `CheckUpdatesThread.Start()` fails with `err`. -/
def updatesStartError (err : String) : GoError :=
  GoError.Wrap (GoError.plain err) (MyGettextv "Error starting update check thread" [])

/-- The error `Run` returns once the menu is built: that of the IP check thread
when it fails to start, else that of the update check thread, each only when
the thread is enabled. -/
def startError (env : Env) (cfg : Configuration) : Option GoError :=
  if ipsStartFails env cfg then env.IpsStart.map ipsStartError
  else if cfg.EnableUpdateCheck then env.UpdatesStart.map updatesStartError
  else none

/-- The environment `quietEnv` with a failing `CheckIpsThread.Start()`. -/
def failingIpsEnv : Env :=
  { quietEnv with IpsStart := some "already running" }

/-- The state `sampleState` with the no-match action set to the constant
`DEACTIVATE_PROXY` of `quietEnv`, so that automatic deactivation is in force. -/
def autoDeactivateState : St :=
  { sampleState with ind := { sampleState.ind with
      Config := { sampleConfig with WhatToDoWhenNoIpMatches := "deactivate" } } }

end ProxyChanger

namespace ProxyChanger

/-! ## Trace lemmas -/

theorem newEvents_append (tr l : List Event) : newEvents tr (tr ++ l) = l := by
  simp [newEvents]

theorem emit_trace (s : St) (e : Event) : (s.emit e).trace = s.trace ++ [e] := rfl

theorem emit_ind (s : St) (e : Event) : (s.emit e).ind = s.ind := rfl

/-! ## Handlers -/

/-- C2. A manual menu selection enters the activation engine directly:
`OnProxyItemActivated(item, p)` makes the single call
`Config.SetActiveProxy(p, "", true)` when `item.GetActive()` is true and no call
when it is false; `OnProxyItemDeActivated(item)` makes the single call
`Config.SetActiveProxy(nil, "", true)` under the same condition; neither calls
`Config.SetProxyForIps`. -/
theorem manual_selection_enters_engine (s : St) (item : MenuItem) (p : Proxy) :
    newEvents s.trace (OnProxyItemActivated s item p).trace =
        (if item.active then [Event.SetActiveProxy (some p) "" true] else []) ∧
    newEvents s.trace (OnProxyItemDeActivated s item).trace =
        (if item.active then [Event.SetActiveProxy none "" true] else []) ∧
    countEv Event.isSetProxyForIps (newEvents s.trace (OnProxyItemActivated s item p).trace) = 0 ∧
    countEv Event.isSetProxyForIps (newEvents s.trace (OnProxyItemDeActivated s item).trace) = 0 := by
  unfold OnProxyItemActivated OnProxyItemDeActivated
  cases item.active <;>
    simp [emit_trace, newEvents, countEv, Event.isSetProxyForIps]

/-- C7. `Quit` makes exactly three calls, in this order:
`CheckIpsThread.Stop()`, `CheckUpdatesThread.Stop()`, `gtk.MainQuit()`; so each
worker is stopped exactly once and both before `gtk.MainQuit()`. -/
theorem quit_stops_both_workers (s : St) :
    newEvents s.trace (Quit s).trace = [Event.IpsStop, Event.UpdatesStop, Event.MainQuit] := by
  simp [Quit, emit_trace, newEvents]


/-- C4. In the toggle handlers a failed `Start()` is one notification and
aborts nothing.  `OnEnableAutoChangeByIpChanged(true)` calls
`CheckIpsThread.Start()` once, sends one notification when it fails and none
when it succeeds, every notification it sends has the title
`MyGettextv("Error")`, and the menu rebuild is scheduled once in both cases;
`OnEnableUpdateCheckChanged(true)` calls `CheckUpdatesThread.Start()` once and
sends one notification when it fails and none when it succeeds; with `false`
each handler calls `Stop()` of its thread once and `Start()` never. -/
theorem start_failure_in_toggle_is_one_notification (env : Env) (s : St) :
    countEv Event.isSendNotification
        (newEvents s.trace (OnEnableAutoChangeByIpChanged env s true).trace) =
      (if env.IpsStart.isSome then 1 else 0) ∧
    (∀ e ∈ newEvents s.trace (OnEnableAutoChangeByIpChanged env s true).trace,
      ∀ t b, e = Event.SendNotification t b → t = MyGettextv "Error" []) ∧
    countEv (fun e => e == Event.IdleAddBuildMenu)
        (newEvents s.trace (OnEnableAutoChangeByIpChanged env s true).trace) = 1 ∧
    countEv (fun e => e == Event.IpsStart)
        (newEvents s.trace (OnEnableAutoChangeByIpChanged env s true).trace) = 1 ∧
    countEv Event.isSendNotification
        (newEvents s.trace (OnEnableUpdateCheckChanged env s true).trace) =
      (if env.UpdatesStart.isSome then 1 else 0) ∧
    countEv (fun e => e == Event.UpdatesStart)
        (newEvents s.trace (OnEnableUpdateCheckChanged env s true).trace) = 1 ∧
    countEv (fun e => e == Event.IpsStop)
        (newEvents s.trace (OnEnableAutoChangeByIpChanged env s false).trace) = 1 ∧
    countEv (fun e => e == Event.IpsStart)
        (newEvents s.trace (OnEnableAutoChangeByIpChanged env s false).trace) = 0 ∧
    countEv (fun e => e == Event.UpdatesStop)
        (newEvents s.trace (OnEnableUpdateCheckChanged env s false).trace) = 1 ∧
    countEv (fun e => e == Event.UpdatesStart)
        (newEvents s.trace (OnEnableUpdateCheckChanged env s false).trace) = 0 := by
  unfold OnEnableAutoChangeByIpChanged OnEnableUpdateCheckChanged ShowNotification
  cases h1 : env.IpsStart <;> cases h2 : env.UpdatesStart <;> cases h3 : env.SendNotification <;>
    simp [emit_trace, newEvents, countEv, Event.isSendNotification, List.filter_cons]

/-! ## The execution report -/

/-- Building the report fails exactly when the last activation has no change
script result while its activation script result is present without error;
otherwise the report has two lines plus one per application result. -/
theorem reportLines_eq_none_iff (cfg : Configuration) (n : GlobalProxyChangeResult)
    (h : cfg.LastExecutionResults = some n) :
    (reportLines cfg = none ↔
      n.ChangeScriptResult = none ∧ ∃ a, n.ActivateScriptResult = some a ∧ a.Error = none) ∧
    ∀ lines, reportLines cfg = some lines → lines.length = 2 + n.Results.length := by
  unfold reportLines activateScriptLine
  rw [h]
  rcases n with ⟨px, r, c, a, rs⟩
  rcases c with _ | c <;> rcases a with _ | a
  · simp; omega
  · cases hE : a.Error <;> simp [hE]; omega
  · simp; omega
  · cases hE : a.Error
    · by_cases hc : c.Code = 0 <;> simp [hE, hc] <;> omega
    · simp [hE]; omega

/-- With both script results present and no error in the activation script,
the activation script line is the WARNING line exactly when the code of the
change script, not that of the activation script, is not 0. -/
theorem activateScriptLine_reads_change_code (c a : ScriptResult) (h : a.Error = none) :
    activateScriptLine (some c) (some a) =
      some (if c.Code = 0 then MyGettextv "Activate proxy script: OK (%v)" [a.CombinedOutput]
        else MyGettextv "Activate proxy script: WARNING (%v, %v)"
          [toString a.Code, a.CombinedOutput]) := by
  by_cases hc : c.Code = 0 <;> simp [activateScriptLine, h, hc]

/-- C8. At the configuration `noChangeScriptConfig` (no change script result,
activation script result present with a nil error and code 0, no application
result) building the report lines dereferences nil and
`ShowLastExecutionResults` panics, where the claim asks for two lines. -/
theorem report_panics_without_change_script :
    reportLines noChangeScriptConfig = none ∧
    ShowLastExecutionResults { sampleState with ind := { sampleState.ind with Config := noChangeScriptConfig } } =
      Flow.panic { sampleState with ind := { sampleState.ind with Config := noChangeScriptConfig } } := by
  constructor <;> rfl

/-- C9. At the configuration `failedActivateScriptConfig` (both results
present, no error, change script code 0, activation script code 3) the
activation script line of the report is the OK line, where the claim asks for
the WARNING line. -/
theorem activate_script_failure_reported_ok :
    reportLines failedActivateScriptConfig =
      some [MyGettextv "Before proxy change script: OK (%v)" [""],
            MyGettextv "Activate proxy script: OK (%v)" ["boom"]] := by
  decide

/-! ## `BuildMenu` step by step -/

theorem MenuInv_guiError {s0 : St} {X : List MenuItem} {m : MenuSt} (err : String)
    (h : MenuInv s0 X m) : MenuInv s0 X (guiError m err) := by
  obtain ⟨hc, ht, ⟨evs, he, hg⟩, hx⟩ := h
  refine ⟨hc, ht, ⟨evs ++ [Event.Log LogLevel.error "Error building GUI: %v." [err],
    Event.ShowMessage MessageType.MESSAGE_ERROR (MyGettextv "Error" [])
      [MyGettextv "Please review the LOG." []]], ?_, ?_⟩, hx⟩
  · simp [guiError, emit_trace, he]
  · intro e hmem
    rcases List.mem_append.1 hmem with h1 | h1
    · exact hg e h1
    · simp at h1
      rcases h1 with rfl | rfl <;> exact ⟨rfl, rfl⟩

theorem MenuInv_append {s0 : St} {X : List MenuItem} {m : MenuSt} (item : MenuItem)
    (hl : isStatusLabel item.label = false) (h : MenuInv s0 X m) :
    MenuInv s0 X (m.append item) := by
  obtain ⟨hc, ht, he, hx⟩ := h
  refine ⟨hc, ht, he, ?_⟩
  simp [MenuSt.append, statusItems, List.filter_append, hl]
  exact hx

theorem MenuInv_append_status {s0 : St} {X : List MenuItem} {m : MenuSt} (item : MenuItem)
    (hl : isStatusLabel item.label = true) (h : MenuInv s0 X m) :
    MenuInv s0 (X ++ [item]) (m.append item) := by
  obtain ⟨hc, ht, he, hx⟩ := h
  refine ⟨hc, ht, he, ?_⟩
  simp [MenuSt.append, statusItems, List.filter_append, hl]
  exact hx

theorem buildNewMenu_good (env : Env) {s0 : St} {m : MenuSt} (h : MenuInv s0 [] m) :
    MenuGood s0 [] (buildNewMenu env m) := by
  unfold buildNewMenu
  cases env.gtkErr GtkCall.menuNew with
  | some err => exact ⟨MenuInv_guiError err h, rfl, rfl⟩
  | none =>
    obtain ⟨hc, ht, he, _⟩ := h
    exact ⟨⟨hc, ht, he, rfl⟩, rfl, rfl⟩

theorem buildNoProxyItem_inv (env : Env) {s0 : St} {X : List MenuItem} {m : MenuSt}
    (h : MenuInv s0 X m) :
    MenuInv s0 X (buildNoProxyItem env m).state ∧
      (buildNoProxyItem env m).returnsError = false := by
  unfold buildNoProxyItem
  cases env.gtkErr GtkCall.noProxyNew with
  | some err => exact ⟨MenuInv_guiError err h, rfl⟩
  | none =>
    cases env.gtkErr GtkCall.noProxyConnect with
    | some err =>
      have h2 := MenuInv_guiError err h
      simp only []
      cases hf : (guiError m err).st.ind.NoProxyRadioItem with
      | none => exact ⟨by simpa [Flow.state] using h2, rfl⟩
      | some old => exact ⟨by simpa [Flow.state, MenuInv] using h2, rfl⟩
    | none =>
      simp only []
      have h2 := @MenuInv_append s0 X m
        { (if m.st.ind.Config.ActiveProxy.isNone then
            { newItem ItemKind.radio (MyGettextv "No proxy" []) with active := true }
           else newItem ItemKind.radio (MyGettextv "No proxy" [])) with
          handler := some Handler.OnProxyItemDeActivated,
          sensitive := some (!(autoDeactivate env m.st.ind.Config)) }
        (by split <;> rfl) h
      exact ⟨by simpa [Flow.state, MenuInv] using h2, rfl⟩

theorem buildGetGroup_good (env : Env) {s0 : St} {X : List MenuItem} {m : MenuSt}
    (h : MenuInv s0 X m) : MenuGood s0 X (buildGetGroup env m) := by
  unfold buildGetGroup
  cases env.gtkErr GtkCall.getGroup with
  | some err => exact ⟨MenuInv_guiError err h, rfl, rfl⟩
  | none => exact ⟨h, rfl, rfl⟩

theorem buildProxyItems_good (env : Env) {s0 : St} {X : List MenuItem} (ps : List Proxy) :
    ∀ (k : Nat) (m : MenuSt), MenuInv s0 X m → MenuGood s0 X (buildProxyItems env k ps m) := by
  induction ps with
  | nil => intro k m h; exact ⟨h, rfl, rfl⟩
  | cons p ps ih =>
    intro k m h
    unfold buildProxyItems
    cases env.gtkErr (GtkCall.proxyNew k) with
    | some err => exact ⟨MenuInv_guiError err h, rfl, rfl⟩
    | none =>
      cases env.gtkErr (GtkCall.proxyConnect k) with
      | some err => exact ih (k + 1) _ (MenuInv_guiError err h)
      | none =>
        simp only []
        apply ih
        have h2 := @MenuInv_append s0 X m
          { (if ptrEq m.st.ind.Config.ActiveProxy p then
              { newItem ItemKind.radio (Text.lit p.Name) with active := true }
             else newItem ItemKind.radio (Text.lit p.Name)) with
            handler := some (Handler.OnProxyItemActivated p),
            sensitive := some (!(autoDeactivate env m.st.ind.Config)) }
          (by split <;> rfl) h
        simpa [MenuInv] using h2

theorem buildProxySection_good (env : Env) {s0 : St} {X : List MenuItem} {m : MenuSt}
    (h : MenuInv s0 X m) : MenuGood s0 X (buildProxySection env m) := by
  unfold buildProxySection
  split
  · exact buildProxyItems_good env _ 0 m h
  · cases env.gtkErr GtkCall.placeholderNew with
    | some err => exact ⟨MenuInv_guiError err h, rfl, rfl⟩
    | none => exact ⟨MenuInv_append _ rfl h, rfl, rfl⟩

theorem buildSeparator_good (env : Env) {s0 : St} {X : List MenuItem} {m : MenuSt}
    (h : MenuInv s0 X m) : MenuGood s0 X (buildSeparator env m) := by
  unfold buildSeparator
  cases env.gtkErr GtkCall.separatorNew with
  | some err => exact ⟨MenuInv_guiError err h, rfl, rfl⟩
  | none => exact ⟨MenuInv_append _ rfl h, rfl, rfl⟩

theorem buildPlainItem_good (env : Env) (mk conn : GtkCall) (label : Text) (hd : Handler)
    (hl : isStatusLabel label = false) {s0 : St} {X : List MenuItem} {m : MenuSt}
    (h : MenuInv s0 X m) : MenuGood s0 X (buildPlainItem env mk conn label hd m) := by
  unfold buildPlainItem
  cases env.gtkErr mk with
  | some err => exact ⟨MenuInv_guiError err h, rfl, rfl⟩
  | none =>
    cases env.gtkErr conn with
    | some err => exact ⟨MenuInv_append _ hl (MenuInv_guiError err h), rfl, rfl⟩
    | none => exact ⟨MenuInv_append _ hl h, rfl, rfl⟩

theorem buildVersionItem_good (env : Env) {s0 : St} {X : List MenuItem} {m : MenuSt}
    (h : MenuInv s0 X m) : MenuGood s0 X (buildVersionItem env m) := by
  unfold buildVersionItem
  split
  · exact buildPlainItem_good env _ _ _ _ (by rfl) h
  · exact ⟨h, rfl, rfl⟩

theorem buildHelpItem_good (env : Env) {s0 : St} {X : List MenuItem} {m : MenuSt}
    (h : MenuInv s0 X m) : MenuGood s0 X (buildHelpItem env m) :=
  buildPlainItem_good env _ _ _ _ (by rfl) h

theorem seq_good {s0 : St} {X : List MenuItem} (steps : List (MenuSt → Flow MenuSt))
    (h : ∀ k ∈ steps, ∀ m, MenuInv s0 X m → MenuGood s0 X (k m)) :
    ∀ m, MenuInv s0 X m → MenuGood s0 X (Flow.seq steps m) := by
  induction steps with
  | nil => intro m hm; exact ⟨hm, rfl, rfl⟩
  | cons k ks ih =>
    intro m hm
    have hk := h k (List.mem_cons_self _ _) m hm
    unfold Flow.seq
    cases hf : k m with
    | next m1 =>
      rw [hf] at hk
      exact ih (fun k1 hk1 => h k1 (List.mem_cons_of_mem _ hk1)) m1 hk.1
    | ret m1 e => rw [hf] at hk; exact hk
    | panic m1 => rw [hf] at hk; exact hk

theorem isStatusLabel_statusLabel (env : Env) (cfg : Configuration) :
    isStatusLabel (statusLabel env cfg) = true := by
  unfold statusLabel
  cases cfg.LastExecutionResults with
  | none => rfl
  | some n => simp only []; split <;> rfl

theorem buildStatusItem_spec (env : Env) {s0 : St} {X : List MenuItem} {m : MenuSt}
    (h : MenuInv s0 X m) :
    (∃ m1, buildStatusItem env m = Flow.ret m1 none ∧ MenuInv s0 X m1) ∨
    (∃ m1 item, buildStatusItem env m = Flow.next m1 ∧ MenuInv s0 (X ++ [item]) m1 ∧
      item.label = statusLabel env s0.ind.Config ∧
      item.sensitive = statusSensitive s0.ind.Config) := by
  have hc : m.st.ind.Config = s0.ind.Config := h.1
  have hs := isStatusLabel_statusLabel env m.st.ind.Config
  unfold buildStatusItem
  cases env.gtkErr GtkCall.statusNew with
  | some err => exact Or.inl ⟨_, rfl, MenuInv_guiError err h⟩
  | none =>
    simp only []
    cases hl : m.st.ind.Config.LastExecutionResults with
    | none =>
      refine Or.inr ⟨_, _, rfl, MenuInv_append_status _ hs h, by rw [hc]; rfl, ?_⟩
      rw [← hc]; simp [statusSensitive, hl]
    | some n =>
      cases env.gtkErr GtkCall.statusConnect with
      | some err =>
        refine Or.inr ⟨_, _, rfl, MenuInv_append_status _ hs (MenuInv_guiError err h), by rw [hc]; rfl, ?_⟩
        rw [← hc]; simp [statusSensitive, hl, newItem]
      | none =>
        refine Or.inr ⟨_, _, rfl, MenuInv_append_status _ hs h, by rw [hc]; rfl, ?_⟩
        rw [← hc]; simp [statusSensitive, hl, newItem]

theorem seq_append {σ : Type} (a b : List (σ → Flow σ)) (s : σ) :
    Flow.seq (a ++ b) s = (Flow.seq a s).andThen (Flow.seq b) := by
  induction a generalizing s with
  | nil => rfl
  | cons k ks ih =>
    simp only [List.cons_append, Flow.seq]
    cases k s with
    | next s1 => exact ih s1
    | ret s1 e => rfl
    | panic s1 => rfl

theorem andThen_outcome {env : Env} {s0 : St} {X : List MenuItem} (f : Flow MenuSt)
    (k : MenuSt → Flow MenuSt) (hf : MenuGood s0 X f)
    (hk : ∀ m, f = Flow.next m → MenuOutcome env s0 (k m)) :
    MenuOutcome env s0 (f.andThen k) := by
  cases f with
  | next m => exact hk m rfl
  | ret m e => exact ⟨hf.2.1, hf.2.2, Or.inl ⟨X, hf.1⟩⟩
  | panic m => exact ⟨hf.2.1, hf.2.2, Or.inl ⟨X, hf.1⟩⟩

theorem menu_tail_outcome (env : Env) {s0 : St} {m : MenuSt} (h : MenuInv s0 [] m) :
    MenuOutcome env s0
      (Flow.seq
        ([buildGetGroup env, buildProxySection env, buildSeparator env,
          buildPlainItem env GtkCall.configurationNew GtkCall.configurationConnect
            (MyGettextv "Configuration" []) Handler.ShowConfigurationWindow] ++
         ([buildStatusItem env] ++
          ([buildVersionItem env,
            buildPlainItem env GtkCall.logNew GtkCall.logConnect
              (MyGettextv "Show LOG" []) (Handler.XdgOpenFromMenuItem env.LOG_PATH),
            buildHelpItem env,
            buildPlainItem env GtkCall.quitNew GtkCall.quitConnect (MyGettextv "Quit" [])
              Handler.Quit] ++ [buildSetMenu]))) m) := by
  rw [seq_append]
  have g1 : MenuGood s0 [] (Flow.seq
      [buildGetGroup env, buildProxySection env, buildSeparator env,
        buildPlainItem env GtkCall.configurationNew GtkCall.configurationConnect
          (MyGettextv "Configuration" []) Handler.ShowConfigurationWindow] m) := by
    apply seq_good _ _ m h
    intro k hk m1 hm1
    simp only [List.mem_cons, List.mem_singleton, List.not_mem_nil, or_false] at hk
    rcases hk with rfl | rfl | rfl | rfl
    · exact buildGetGroup_good env hm1
    · exact buildProxySection_good env hm1
    · exact buildSeparator_good env hm1
    · exact buildPlainItem_good env _ _ _ _ (by rfl) hm1
  apply andThen_outcome _ _ g1
  intro m1 hm1
  have i1 : MenuInv s0 [] m1 := by have := g1.1; rw [hm1] at this; exact this
  rw [seq_append]
  rcases buildStatusItem_spec env i1 with ⟨m2, h2, i2⟩ | ⟨m2, item, h2, i2, hlab, hsens⟩
  · have : Flow.seq [buildStatusItem env] m1 = Flow.ret m2 none := by
      simp [Flow.seq, h2, Flow.andThen]
    rw [this]
    exact ⟨rfl, rfl, Or.inl ⟨[], i2⟩⟩
  · have : Flow.seq [buildStatusItem env] m1 = Flow.next m2 := by
      simp [Flow.seq, h2, Flow.andThen]
    rw [this]
    simp only [Flow.andThen, List.nil_append] at i2 ⊢
    rw [seq_append]
    have g3 : MenuGood s0 [item] (Flow.seq
        [buildVersionItem env,
          buildPlainItem env GtkCall.logNew GtkCall.logConnect
            (MyGettextv "Show LOG" []) (Handler.XdgOpenFromMenuItem env.LOG_PATH),
          buildHelpItem env,
          buildPlainItem env GtkCall.quitNew GtkCall.quitConnect (MyGettextv "Quit" [])
            Handler.Quit] m2) := by
      apply seq_good _ _ m2 i2
      intro k hk m3 hm3
      simp only [List.mem_cons, List.mem_singleton, List.not_mem_nil, or_false] at hk
      rcases hk with rfl | rfl | rfl | rfl
      · exact buildVersionItem_good env hm3
      · exact buildPlainItem_good env _ _ _ _ (by rfl) hm3
      · exact buildHelpItem_good env hm3
      · exact buildPlainItem_good env _ _ _ _ (by rfl) hm3
    apply andThen_outcome _ _ g3
    intro m3 hm3
    have i3 : MenuInv s0 [item] m3 := by have := g3.1; rw [hm3] at this; exact this
    refine ⟨rfl, rfl, Or.inr ⟨m3, item, rfl, i3, hlab, hsens⟩⟩

theorem menusSet_append (a b : List Event) : menusSet (a ++ b) = menusSet a ++ menusSet b := by
  induction a with
  | nil => rfl
  | cons e es ih => cases e <;> simp [menusSet, ih]

theorem menusSet_eq_nil (evs : List Event) (h : ∀ e ∈ evs, e.isSetMenu = false) :
    menusSet evs = [] := by
  induction evs with
  | nil => rfl
  | cons e es ih =>
    have he := h e (List.mem_cons_self _ _)
    have hes := ih (fun e1 h1 => h e1 (List.mem_cons_of_mem _ h1))
    cases e <;> simp_all [menusSet, Event.isSetMenu]

theorem facts_of_inv (env : Env) {s0 : St} {X : List MenuItem} {m : MenuSt}
    (h : MenuInv s0 X m) : BuildFacts env s0 m.st := by
  obtain ⟨hc, ht, ⟨evs, he, hg⟩, _⟩ := h
  refine ⟨hc, ht, evs, he, fun e h1 => (hg e h1).1, ?_⟩
  rw [menusSet_eq_nil evs (fun e h1 => (hg e h1).2)]
  intro menu hm
  cases hm

theorem facts_of_outcome (env : Env) {s0 : St} {f : Flow MenuSt}
    (h : MenuOutcome env s0 f) : BuildFacts env s0 f.state.st := by
  obtain ⟨_, _, ⟨X, hi⟩ | ⟨m, item, hf, hi, hlab, hsens⟩⟩ := h
  · exact facts_of_inv env hi
  · obtain ⟨hc, ht, ⟨evs, he, hg⟩, hx⟩ := hi
    subst hf
    refine ⟨hc, ht, evs ++ [Event.SetMenu m.menu], ?_, ?_, ?_⟩
    · simp [Flow.state, emit_trace, he]
    · intro e h1
      rcases List.mem_append.1 h1 with h2 | h2
      · exact (hg e h2).1
      · simp at h2; subst h2; rfl
    · rw [menusSet_append, menusSet_eq_nil evs (fun e h1 => (hg e h1).2)]
      intro menu hm
      simp [menusSet] at hm
      subst hm
      exact ⟨item, hx, hlab, hsens⟩

theorem toSt_state (f : Flow MenuSt) : f.toSt.state = f.state.st := by
  cases f <;> rfl

theorem toSt_returnsError (f : Flow MenuSt) : f.toSt.returnsError = f.returnsError := by
  cases f with
  | next m => rfl
  | ret m e => cases e <;> rfl
  | panic m => rfl

theorem toSt_isPanic (f : Flow MenuSt) : f.toSt.isPanic = f.isPanic := by
  cases f <;> rfl

theorem buildNoProxyItem_isPanic (env : Env) (m : MenuSt) :
    (buildNoProxyItem env m).isPanic =
      ((env.gtkErr GtkCall.noProxyNew).isNone && (env.gtkErr GtkCall.noProxyConnect).isSome &&
        m.st.ind.NoProxyRadioItem.isNone) := by
  unfold buildNoProxyItem
  cases env.gtkErr GtkCall.noProxyNew with
  | some err => rfl
  | none =>
    cases env.gtkErr GtkCall.noProxyConnect with
    | none => rfl
    | some err =>
      have hfield : (guiError m err).st.ind.NoProxyRadioItem = m.st.ind.NoProxyRadioItem := rfl
      simp only []
      rw [hfield]
      cases m.st.ind.NoProxyRadioItem <;> rfl

/-- The method `BuildMenu` never returns an error, dereferences nil exactly in the case
`menuCrash`, and leaves `BuildFacts`. -/
theorem BuildMenu_spec (env : Env) (s : St) :
    (BuildMenu env s).returnsError = false ∧
    (BuildMenu env s).isPanic = menuCrash env s.ind ∧
    BuildFacts env s (BuildMenu env s).state := by
  have h0 : MenuInv s [] { st := s, menu := [] } :=
    ⟨rfl, rfl, ⟨[], by simp, by simp⟩, rfl⟩
  unfold BuildMenu buildMenuSteps
  rw [toSt_state, toSt_returnsError, toSt_isPanic]
  simp only [Flow.seq]
  unfold buildNewMenu
  cases hmn : env.gtkErr GtkCall.menuNew with
  | some err =>
    exact ⟨rfl, by simp [menuCrash, hmn, Flow.andThen, Flow.isPanic],
      facts_of_inv env (MenuInv_guiError err h0)⟩
  | none =>
    simp only [Flow.andThen]
    have hinv := buildNoProxyItem_inv env h0
    have hp := buildNoProxyItem_isPanic env { st := s, menu := [] }
    have hcrash : menuCrash env s.ind =
        ((env.gtkErr GtkCall.noProxyNew).isNone && (env.gtkErr GtkCall.noProxyConnect).isSome &&
          s.ind.NoProxyRadioItem.isNone) := by
      simp [menuCrash, hmn]
    rw [hcrash]
    simp only [] at hp
    rw [← hp]
    generalize buildNoProxyItem env { st := s, menu := [] } = f2 at hinv hp ⊢
    cases f2 with
    | next m2 =>
      have ho := menu_tail_outcome env hinv.1
      exact ⟨ho.1, ho.2.1, facts_of_outcome env ho⟩
    | ret m2 e => exact ⟨hinv.2, rfl, facts_of_inv env hinv.1⟩
    | panic m2 => exact ⟨rfl, rfl, facts_of_inv env hinv.1⟩

/-! ## `BuildMenu` when no GTK call fails -/

theorem noGtkErrors_mem {env : Env} {n : Nat} (h : noGtkErrors env n = true) (c : GtkCall)
    (hc : c ∈ gtkCalls n) : env.gtkErr c = none := by
  have := List.all_eq_true.1 h c hc
  simpa using this

theorem proxyItem_eq (env : Env) (cfg : Configuration) (p : Proxy) :
    ({ (if ptrEq cfg.ActiveProxy p then
          { newItem ItemKind.radio (Text.lit p.Name) with active := true }
        else newItem ItemKind.radio (Text.lit p.Name)) with
        handler := some (Handler.OnProxyItemActivated p),
        sensitive := some (!(autoDeactivate env cfg)) } : MenuItem) =
      proxyItemSpec env cfg p := by
  cases h : ptrEq cfg.ActiveProxy p <;> simp [proxyItemSpec, newItem, autoDeactivate, h]

theorem buildProxyItems_ok (env : Env) (ps : List Proxy) :
    ∀ (k : Nat) (m : MenuSt),
      (∀ j, j < ps.length → env.gtkErr (GtkCall.proxyNew (k + j)) = none ∧
        env.gtkErr (GtkCall.proxyConnect (k + j)) = none) →
      ∃ m1, buildProxyItems env k ps m = Flow.next m1 ∧
        m1.menu = m.menu ++ ps.map (proxyItemSpec env m.st.ind.Config) ∧
        m1.st.ind = m.st.ind ∧ m1.st.trace = m.st.trace := by
  induction ps with
  | nil => intro k m _; exact ⟨m, rfl, by simp, rfl, rfl⟩
  | cons p ps ih =>
    intro k m h
    have h0 := h 0 (by simp)
    simp only [Nat.add_zero] at h0
    unfold buildProxyItems
    rw [h0.1, h0.2]
    simp only []
    rw [proxyItem_eq]
    obtain ⟨m1, e1, e2, e3, e4⟩ := ih (k + 1)
      (MenuSt.mk
        (St.mk m.st.ind
          ((p.addr, proxyItemSpec env m.st.ind.Config p, env.gtkHandle (GtkCall.proxyConnect k)) ::
            m.st.proxyWidgets.filter (fun w => w.1 != p.addr))
          m.st.trace)
        (m.menu ++ [proxyItemSpec env m.st.ind.Config p]))
      (by
        intro j hj
        have := h (j + 1) (by simpa using hj)
        rw [show k + (j + 1) = k + 1 + j by omega] at this
        exact this)
    refine ⟨m1, e1, ?_, e3, e4⟩
    rw [e2]
    simp

theorem MenuOk_append_plain {s0 : St} {R : List MenuItem} {m : MenuSt} (item : MenuItem)
    (hk : (item.kind == ItemKind.radio) = false) (h : MenuOk s0 R m) :
    MenuOk s0 R (m.append item) := by
  obtain ⟨hc, ht, hr⟩ := h
  refine ⟨hc, ht, ?_⟩
  simp only [MenuSt.append, radioItems, List.filter_append] at hr ⊢
  rw [hr]
  simp [List.filter_cons, hk]

theorem MenuOk_append_radio {s0 : St} {R : List MenuItem} {m : MenuSt} (item : MenuItem)
    (hk : (item.kind == ItemKind.radio) = true) (h : MenuOk s0 R m) :
    MenuOk s0 (R ++ [item]) (m.append item) := by
  obtain ⟨hc, ht, hr⟩ := h
  refine ⟨hc, ht, ?_⟩
  simp only [MenuSt.append, radioItems, List.filter_append] at hr ⊢
  rw [hr]
  simp [List.filter_cons, hk]

theorem buildNewMenu_ok (env : Env) (s0 : St) (R : List MenuItem)
    (h1 : env.gtkErr GtkCall.menuNew = none) : StepOk s0 R [] (buildNewMenu env) := by
  intro m hm
  unfold buildNewMenu
  rw [h1]
  exact ⟨_, rfl, hm.1, hm.2.1, rfl⟩

theorem buildNoProxyItem_ok (env : Env) (s0 : St)
    (h1 : env.gtkErr GtkCall.noProxyNew = none)
    (h2 : env.gtkErr GtkCall.noProxyConnect = none) :
    StepOk s0 [] [noProxyItemSpec env s0.ind.Config] (buildNoProxyItem env) := by
  intro m hm
  unfold buildNoProxyItem
  rw [h1, h2]
  refine ⟨_, rfl, ?_⟩
  have hitem : ({ (if m.st.ind.Config.ActiveProxy.isNone then
          { newItem ItemKind.radio (MyGettextv "No proxy" []) with active := true }
        else newItem ItemKind.radio (MyGettextv "No proxy" [])) with
        handler := some Handler.OnProxyItemDeActivated,
        sensitive := some (!(autoDeactivate env m.st.ind.Config)) } : MenuItem) =
      noProxyItemSpec env s0.ind.Config := by
    rw [hm.1]
    cases h : s0.ind.Config.ActiveProxy.isNone <;>
      simp [noProxyItemSpec, newItem, autoDeactivate, h]
  have := MenuOk_append_radio (noProxyItemSpec env s0.ind.Config) rfl hm
  simp only [hitem]
  exact ⟨this.1, this.2.1, by simpa using this.2.2⟩

theorem buildGetGroup_ok (env : Env) (s0 : St) (R : List MenuItem)
    (h1 : env.gtkErr GtkCall.getGroup = none) : StepOk s0 R R (buildGetGroup env) := by
  intro m hm
  unfold buildGetGroup
  rw [h1]
  exact ⟨_, rfl, hm⟩

theorem radioItems_map_proxyItemSpec (env : Env) (cfg : Configuration) (ps : List Proxy) :
    radioItems (ps.map (proxyItemSpec env cfg)) = ps.map (proxyItemSpec env cfg) := by
  induction ps with
  | nil => rfl
  | cons p ps ih =>
    simp only [radioItems, List.map_cons] at ih ⊢
    rw [List.filter_cons_of_pos (by rfl), ih]

theorem buildProxySection_ok (env : Env) (s0 : St) (R : List MenuItem)
    (h1 : env.gtkErr GtkCall.placeholderNew = none)
    (h2 : ∀ j, j < s0.ind.Config.Proxies.length →
      env.gtkErr (GtkCall.proxyNew j) = none ∧ env.gtkErr (GtkCall.proxyConnect j) = none) :
    StepOk s0 R
      (R ++ (match s0.ind.Config.Proxies with
        | [] => [placeholderItemSpec]
        | p :: ps => (p :: ps).map (proxyItemSpec env s0.ind.Config)))
      (buildProxySection env) := by
  intro m hm
  obtain ⟨hc, ht, hr⟩ := hm
  unfold buildProxySection
  rw [hc]
  cases hps : s0.ind.Config.Proxies with
  | nil =>
    simp only [List.length_nil, gt_iff_lt, Nat.lt_irrefl, ↓reduceIte]
    rw [h1]
    exact ⟨_, rfl, MenuOk_append_radio _ rfl ⟨hc, ht, hr⟩⟩
  | cons p ps =>
    simp only [List.length_cons, gt_iff_lt, Nat.zero_lt_succ, ↓reduceIte]
    obtain ⟨m1, e1, e2, e3, e4⟩ := buildProxyItems_ok env (p :: ps) 0 m (by
      intro j hj
      rw [hps] at h2
      simpa using h2 j hj)
    refine ⟨m1, e1, ?_, ?_, ?_⟩
    · rw [e3, hc]
    · rw [e4, ht]
    · rw [e2, hc]
      simp only [radioItems, List.filter_append] at hr ⊢
      rw [hr]
      have := radioItems_map_proxyItemSpec env s0.ind.Config (p :: ps)
      simp only [radioItems] at this
      rw [this]

theorem buildSeparator_ok (env : Env) (s0 : St) (R : List MenuItem)
    (h1 : env.gtkErr GtkCall.separatorNew = none) : StepOk s0 R R (buildSeparator env) := by
  intro m hm
  unfold buildSeparator
  rw [h1]
  exact ⟨_, rfl, MenuOk_append_plain _ rfl hm⟩

theorem buildPlainItem_ok (env : Env) (mk conn : GtkCall) (label : Text) (hd : Handler)
    (s0 : St) (R : List MenuItem)
    (h1 : env.gtkErr mk = none) (h2 : env.gtkErr conn = none) :
    StepOk s0 R R (buildPlainItem env mk conn label hd) := by
  intro m hm
  unfold buildPlainItem
  rw [h1, h2]
  exact ⟨_, rfl, MenuOk_append_plain _ rfl hm⟩

theorem buildStatusItem_ok (env : Env) (s0 : St) (R : List MenuItem)
    (h1 : env.gtkErr GtkCall.statusNew = none) (h2 : env.gtkErr GtkCall.statusConnect = none) :
    StepOk s0 R R (buildStatusItem env) := by
  intro m hm
  unfold buildStatusItem
  rw [h1, h2]
  simp only []
  cases m.st.ind.Config.LastExecutionResults with
  | none => exact ⟨_, rfl, MenuOk_append_plain _ rfl hm⟩
  | some n => exact ⟨_, rfl, MenuOk_append_plain _ rfl hm⟩

theorem buildVersionItem_ok (env : Env) (s0 : St) (R : List MenuItem)
    (h1 : env.gtkErr GtkCall.versionNew = none) (h2 : env.gtkErr GtkCall.versionConnect = none) :
    StepOk s0 R R (buildVersionItem env) := by
  intro m hm
  unfold buildVersionItem
  split
  · exact buildPlainItem_ok env _ _ _ _ s0 R h1 h2 m hm
  · exact ⟨_, rfl, hm⟩

theorem buildHelpItem_ok (env : Env) (s0 : St) (R : List MenuItem)
    (h1 : env.gtkErr GtkCall.helpNew = none) (h2 : env.gtkErr GtkCall.helpConnect = none) :
    StepOk s0 R R (buildHelpItem env) := by
  intro m hm
  exact buildPlainItem_ok env _ _ _ _ s0 R h1 h2 m hm

theorem StepOk_cons {s0 : St} {R R1 R2 : List MenuItem} {k : MenuSt → Flow MenuSt}
    {ks : List (MenuSt → Flow MenuSt)} (hk : StepOk s0 R R1 k)
    (hks : StepOk s0 R1 R2 (Flow.seq ks)) : StepOk s0 R R2 (Flow.seq (k :: ks)) := by
  intro m hm
  obtain ⟨m1, e1, i1⟩ := hk m hm
  obtain ⟨m2, e2, i2⟩ := hks m1 i1
  exact ⟨m2, by simp [Flow.seq, e1, Flow.andThen, e2], i2⟩

theorem StepOk_nil (s0 : St) (R : List MenuItem) : StepOk s0 R R (Flow.seq []) :=
  fun m hm => ⟨m, rfl, hm⟩

/-- When no GTK call fails, `BuildMenu` returns nil after the single call
`SetMenu`, on a menu whose radio items are those of `radioItemsSpec`. -/
theorem BuildMenu_ok (env : Env) (s : St)
    (h : noGtkErrors env s.ind.Config.Proxies.length = true) :
    ∃ menu s1, BuildMenu env s = Flow.ret s1 none ∧
      s1.trace = s.trace ++ [Event.SetMenu menu] ∧
      radioItems menu = radioItemsSpec env s.ind.Config := by
  have hf : ∀ c, c ∈ gtkCalls 0 → env.gtkErr c = none := by
    intro c hc
    apply noGtkErrors_mem h c
    simp only [gtkCalls, List.range_zero, List.map_nil, List.append_nil] at hc
    simp only [gtkCalls, List.mem_append]
    exact Or.inl (Or.inl hc)
  have hp : ∀ j, j < s.ind.Config.Proxies.length →
      env.gtkErr (GtkCall.proxyNew j) = none ∧ env.gtkErr (GtkCall.proxyConnect j) = none := by
    intro j hj
    constructor <;> apply noGtkErrors_mem h <;> simp [gtkCalls, hj]
  have hsteps : StepOk s [] (radioItemsSpec env s.ind.Config)
      (Flow.seq
        [ buildNewMenu env, buildNoProxyItem env, buildGetGroup env, buildProxySection env,
          buildSeparator env,
          buildPlainItem env GtkCall.configurationNew GtkCall.configurationConnect
            (MyGettextv "Configuration" []) Handler.ShowConfigurationWindow,
          buildStatusItem env, buildVersionItem env,
          buildPlainItem env GtkCall.logNew GtkCall.logConnect
            (MyGettextv "Show LOG" []) (Handler.XdgOpenFromMenuItem env.LOG_PATH),
          buildHelpItem env,
          buildPlainItem env GtkCall.quitNew GtkCall.quitConnect (MyGettextv "Quit" [])
            Handler.Quit ]) := by
    refine StepOk_cons (buildNewMenu_ok env s _ (hf _ (by simp [gtkCalls]))) ?_
    refine StepOk_cons (buildNoProxyItem_ok env s (hf _ (by simp [gtkCalls]))
      (hf _ (by simp [gtkCalls]))) ?_
    refine StepOk_cons (buildGetGroup_ok env s _ (hf _ (by simp [gtkCalls]))) ?_
    refine StepOk_cons (buildProxySection_ok env s _ (hf _ (by simp [gtkCalls])) hp) ?_
    refine StepOk_cons (buildSeparator_ok env s _ (hf _ (by simp [gtkCalls]))) ?_
    refine StepOk_cons (buildPlainItem_ok env _ _ _ _ s _ (hf _ (by simp [gtkCalls]))
      (hf _ (by simp [gtkCalls]))) ?_
    refine StepOk_cons (buildStatusItem_ok env s _ (hf _ (by simp [gtkCalls]))
      (hf _ (by simp [gtkCalls]))) ?_
    refine StepOk_cons (buildVersionItem_ok env s _ (hf _ (by simp [gtkCalls]))
      (hf _ (by simp [gtkCalls]))) ?_
    refine StepOk_cons (buildPlainItem_ok env _ _ _ _ s _ (hf _ (by simp [gtkCalls]))
      (hf _ (by simp [gtkCalls]))) ?_
    refine StepOk_cons (buildHelpItem_ok env s _ (hf _ (by simp [gtkCalls]))
      (hf _ (by simp [gtkCalls]))) ?_
    refine StepOk_cons (buildPlainItem_ok env _ _ _ _ s _ (hf _ (by simp [gtkCalls]))
      (hf _ (by simp [gtkCalls]))) ?_
    exact StepOk_nil s _
  obtain ⟨m1, e1, hc, ht, hr⟩ := hsteps { st := s, menu := [] } ⟨rfl, rfl, rfl⟩
  have hsplit : buildMenuSteps env =
      [ buildNewMenu env, buildNoProxyItem env, buildGetGroup env, buildProxySection env,
        buildSeparator env,
        buildPlainItem env GtkCall.configurationNew GtkCall.configurationConnect
          (MyGettextv "Configuration" []) Handler.ShowConfigurationWindow,
        buildStatusItem env, buildVersionItem env,
        buildPlainItem env GtkCall.logNew GtkCall.logConnect
          (MyGettextv "Show LOG" []) (Handler.XdgOpenFromMenuItem env.LOG_PATH),
        buildHelpItem env,
        buildPlainItem env GtkCall.quitNew GtkCall.quitConnect (MyGettextv "Quit" [])
          Handler.Quit ] ++ [buildSetMenu] := rfl
  refine ⟨m1.menu, (m1.st.emit (Event.SetMenu m1.menu)), ?_, ?_, hr⟩
  · unfold BuildMenu
    rw [hsplit, seq_append, e1]
    rfl
  · rw [emit_trace, ht]

/-! ## `Run` step by step -/

theorem runImport_spec (env : Env) (s : St) :
    (runImport env s).2 = importedProxy env s.ind.Config ∧
    (runImport env s).1.ind =
      { s.ind with Config :=
          if s.ind.Config.IndicatorAlreadyRun then s.ind.Config else savedConfig env s.ind.Config } ∧
    ∃ ie, (runImport env s).1.trace = s.trace ++ ie ∧
      ie.filter Event.isImportCall =
        (if s.ind.Config.IndicatorAlreadyRun then []
         else (match importedProxy env s.ind.Config with
            | some p => [Event.AddProxy false p]
            | none => []) ++
           [Event.Save (savedConfig env s.ind.Config)
             (MyGettextv "Initial indicator configuration and proxy import" [])]) ∧
      ie.filter Event.isSetActiveProxy = [] ∧
      ie.filter Event.isUpdatesCall = [] := by
  unfold runImport importedProxy savedConfig importedProxy
  cases h0 : s.ind.Config.IndicatorAlreadyRun
  · cases h1 : env.GetGnomeProxy.1 <;> cases h2 : env.GetGnomeProxy.2 <;>
      cases h3 : env.GetEnvironmentProxy.1 <;> cases h4 : env.GetEnvironmentProxy.2 <;>
      simp [importProxy, emit_trace, emit_ind, h0, h1, h2, h3, h4, St.emit,
        Event.isImportCall, Event.isAddProxy, Event.isSave, Event.isSetActiveProxy,
        Event.isUpdatesCall, List.filter_cons]
  · simp [h0]

theorem UpdateLabel_eq (env : Env) (s : St) :
    UpdateLabel env s = s.emit (Event.SetLabel (labelSpec env s.ind.Config)) := by
  unfold UpdateLabel labelSpec
  cases s.ind.Config.ShowCurrentProxyNameNextToIndicator with
  | false => rfl
  | true =>
    cases s.ind.Config.LastExecutionResults with
    | none => cases s.ind.Config.ActiveProxy <;> rfl
    | some n =>
      by_cases h : env.GetNumberOfErrors n > 0 <;> cases hp : n.Proxy <;>
        simp [h, hp, markedName]

theorem runStartUpdates_spec (env : Env) (s : St) :
    ∃ s1, (runStartUpdates env s).andThen (fun s => Flow.ret s none) =
        Flow.ret s1 (if s.ind.Config.EnableUpdateCheck then env.UpdatesStart.map updatesStartError
          else none) ∧
      s1.ind = s.ind ∧ s1.trace = s.trace ++ updatesCalls s.ind := by
  unfold runStartUpdates updatesCalls updatesStartError
  cases h3 : s.ind.Config.EnableUpdateCheck <;> cases h4 : env.UpdatesStart <;>
    cases h5 : s.ind.TestMode <;>
    simp [emit_trace, emit_ind, St.emit, h3, h4, h5, Flow.andThen]

theorem runStartIps_spec (env : Env) (s : St) :
    (ipsStartFails env s.ind.Config = true ∧
      ∃ s1, runStartIps env s = Flow.ret s1 (env.IpsStart.map ipsStartError) ∧
        s1.ind = s.ind ∧
        s1.trace = s.trace ++ [Event.IpsAddListener, Event.IpsCheck, Event.IpsStart]) ∨
    (ipsStartFails env s.ind.Config = false ∧
      ∃ s1, runStartIps env s = Flow.next s1 ∧ s1.ind = s.ind ∧
        s1.trace = s.trace ++ Event.IpsAddListener ::
          (if s.ind.Config.EnableAutoChangeByIp then [Event.IpsCheck, Event.IpsStart] else [])) := by
  unfold runStartIps ipsStartFails ipsStartError
  cases h1 : s.ind.Config.EnableAutoChangeByIp <;> cases h2 : env.IpsStart <;>
    simp [emit_trace, emit_ind, St.emit, h1, h2]

theorem runTail_spec (env : Env) (b0 : Bool) (p : Option Proxy) (s2 : St) :
    (Flow.seq (runTailSteps env b0 p) s2).state.ind = s2.ind ∧
    (Flow.seq (runTailSteps env b0 p) s2).isPanic = false ∧
    (Flow.seq (runTailSteps env b0 p) s2).error = startError env s2.ind.Config ∧
    ∃ tl, (Flow.seq (runTailSteps env b0 p) s2).state.trace = s2.trace ++ tl ∧
      tl.filter Event.isImportCall = [] ∧
      tl.filter Event.isSetActiveProxy =
        (if b0 then [startupCall s2.ind.Config p] else []) ∧
      tl.filter Event.isUpdatesCall =
        (if ipsStartFails env s2.ind.Config then [] else updatesCalls s2.ind) := by
  simp only [runTailSteps, Flow.seq, Flow.andThen, UpdateLabel_eq]
  have hfront : ∃ fr, (runSetProxy ((s2.emit (Event.SetLabel (labelSpec env s2.ind.Config))).emit
        Event.ConfigAddListener) b0 p).ind = s2.ind ∧
      (runSetProxy ((s2.emit (Event.SetLabel (labelSpec env s2.ind.Config))).emit
        Event.ConfigAddListener) b0 p).trace = s2.trace ++ fr ∧
      fr.filter Event.isImportCall = [] ∧
      fr.filter Event.isSetActiveProxy = (if b0 then [startupCall s2.ind.Config p] else []) ∧
      fr.filter Event.isUpdatesCall = [] := by
    unfold runSetProxy startupCall
    cases b0 <;> cases p <;>
      simp [emit_trace, emit_ind, St.emit, Event.isImportCall, Event.isAddProxy, Event.isSave,
        Event.isSetActiveProxy, Event.isUpdatesCall, List.filter_cons]
  obtain ⟨fr, hi, ht, f1, f2, f3⟩ := hfront
  generalize runSetProxy ((s2.emit (Event.SetLabel (labelSpec env s2.ind.Config))).emit
        Event.ConfigAddListener) b0 p = s5 at hi ht
  rcases runStartIps_spec env s5 with ⟨hfail, s6, e6, i6, t6⟩ | ⟨hfail, s6, e6, i6, t6⟩
  · rw [hi] at hfail
    rw [e6]
    refine ⟨by simp [Flow.state, i6, hi], rfl, by simp [Flow.error, startError, hfail],
      fr ++ [Event.IpsAddListener, Event.IpsCheck, Event.IpsStart], ?_, ?_, ?_, ?_⟩
    · simp [Flow.state, t6, ht]
    · simp [List.filter_append, f1, Event.isImportCall, Event.isAddProxy, Event.isSave,
        List.filter_cons]
    · simp [List.filter_append, f2, Event.isSetActiveProxy, List.filter_cons]
    · simp [List.filter_append, f3, Event.isUpdatesCall, List.filter_cons, hfail]
  · rw [hi] at hfail
    rw [e6]
    simp only []
    obtain ⟨s7, e7, i7, t7⟩ := runStartUpdates_spec env s6
    simp only [Flow.andThen] at e7
    rw [e7]
    rw [i6, hi] at e7 i7 t7
    refine ⟨by simp [Flow.state, i7], rfl, ?_, ?_⟩
    · simp [Flow.error, startError, hfail, i6, hi]
    · refine ⟨fr ++ (Event.IpsAddListener ::
          (if s5.ind.Config.EnableAutoChangeByIp then [Event.IpsCheck, Event.IpsStart] else [])) ++
          updatesCalls s2.ind, ?_, ?_, ?_, ?_⟩
      · simp [Flow.state, t7, t6, ht]
      · unfold updatesCalls
        cases s5.ind.Config.EnableAutoChangeByIp <;> cases s2.ind.Config.EnableUpdateCheck <;>
          cases s2.ind.TestMode <;>
          simp [List.filter_append, f1, Event.isImportCall, Event.isAddProxy, Event.isSave,
            List.filter_cons]
      · unfold updatesCalls
        cases s5.ind.Config.EnableAutoChangeByIp <;> cases s2.ind.Config.EnableUpdateCheck <;>
          cases s2.ind.TestMode <;>
          simp [List.filter_append, f2, Event.isSetActiveProxy, List.filter_cons]
      · unfold updatesCalls
        cases s5.ind.Config.EnableAutoChangeByIp <;> cases s2.ind.Config.EnableUpdateCheck <;>
          cases s2.ind.TestMode <;>
          simp [List.filter_append, f3, Event.isUpdatesCall, List.filter_cons, hfail]

theorem filter_gui_eq_nil (P : Event → Bool) (gui : List Event)
    (hg : ∀ e ∈ gui, e.isGui = true) (hP : ∀ e, e.isGui = true → P e = false) :
    gui.filter P = [] := by
  rw [List.filter_eq_nil_iff]
  intro e he
  simp [hP e (hg e he)]

theorem isImportCall_gui (e : Event) (h : e.isGui = true) : e.isImportCall = false := by
  cases e <;> simp_all [Event.isGui, Event.isImportCall, Event.isAddProxy, Event.isSave]

theorem isSetActiveProxy_gui (e : Event) (h : e.isGui = true) : e.isSetActiveProxy = false := by
  cases e <;> simp_all [Event.isGui, Event.isSetActiveProxy]

theorem isUpdatesCall_gui (e : Event) (h : e.isGui = true) : e.isUpdatesCall = false := by
  cases e <;> simp_all [Event.isGui, Event.isUpdatesCall]

theorem runBuildMenu_spec (env : Env) (s1 : St) :
    ∃ s2, BuildFacts env s1 s2 ∧
      ((menuCrash env s1.ind = true ∧ runBuildMenu env s1 = Flow.panic s2) ∨
       (menuCrash env s1.ind = false ∧ runBuildMenu env s1 = Flow.next s2)) := by
  obtain ⟨hne, hp, hf⟩ := BuildMenu_spec env s1
  unfold runBuildMenu
  cases hb : BuildMenu env s1 with
  | next s2 =>
    rw [hb] at hp hf
    exact ⟨s2, hf, Or.inr ⟨hp.symm, rfl⟩⟩
  | panic s2 =>
    rw [hb] at hp hf
    exact ⟨s2, hf, Or.inl ⟨hp.symm, rfl⟩⟩
  | ret s2 e =>
    rw [hb] at hp hf hne
    cases e with
    | none => exact ⟨s2, hf, Or.inr ⟨hp.symm, rfl⟩⟩
    | some e => simp [Flow.returnsError] at hne

/-- The whole of `Run`, read off its trace: it dereferences nil exactly in the
case `menuCrash`; otherwise it returns `startError`; its calls of the first-run
import, of `SetActiveProxy` and on `CheckUpdatesThread` are the ones listed. -/
theorem Run_spec (env : Env) (s : St) (b0 : Bool) :
    (Run env s b0).state.ind.Config = (runImport env s).1.ind.Config ∧
    (Run env s b0).isPanic = menuCrash env s.ind ∧
    (Run env s b0).error =
      (if menuCrash env s.ind then none else startError env (runImport env s).1.ind.Config) ∧
    ∃ ev, (Run env s b0).state.trace = s.trace ++ ev ∧
      ev.filter Event.isImportCall =
        (if s.ind.Config.IndicatorAlreadyRun then []
         else (match importedProxy env s.ind.Config with
            | some p => [Event.AddProxy false p]
            | none => []) ++
           [Event.Save (savedConfig env s.ind.Config)
             (MyGettextv "Initial indicator configuration and proxy import" [])]) ∧
      ev.filter Event.isSetActiveProxy =
        (if menuCrash env s.ind then []
         else if b0 then
           [startupCall (runImport env s).1.ind.Config (importedProxy env s.ind.Config)]
         else []) ∧
      ev.filter Event.isUpdatesCall =
        (if menuCrash env s.ind then []
         else if ipsStartFails env (runImport env s).1.ind.Config then []
         else updatesCalls (runImport env s).1.ind) := by
  obtain ⟨hp2, hind, ie, hie, fi1, fi2, fi3⟩ := runImport_spec env s
  have hcrash : menuCrash env (runImport env s).1.ind = menuCrash env s.ind := by
    rw [hind]; rfl
  obtain ⟨s2, ⟨hc2, ht2, gui, hgt, hgg, _⟩, hcase⟩ := runBuildMenu_spec env (runImport env s).1
  have g1 := filter_gui_eq_nil Event.isImportCall gui hgg isImportCall_gui
  have g2 := filter_gui_eq_nil Event.isSetActiveProxy gui hgg isSetActiveProxy_gui
  have g3 := filter_gui_eq_nil Event.isUpdatesCall gui hgg isUpdatesCall_gui
  have hrun : Run env s b0 =
      (runBuildMenu env (runImport env s).1).andThen
        (Flow.seq (runTailSteps env b0 (runImport env s).2)) := rfl
  rw [hrun]
  rcases hcase with ⟨hm, hb⟩ | ⟨hm, hb⟩
  · rw [hb]
    rw [hcrash] at hm
    refine ⟨hc2, by simp [Flow.andThen, Flow.isPanic, hm], by simp [Flow.andThen, Flow.error, hm],
      ie ++ gui, ?_, ?_, ?_, ?_⟩
    · simp [Flow.andThen, Flow.state, hgt, hie]
    · rw [List.filter_append, g1, fi1]; simp
    · rw [List.filter_append, g2, fi2]; simp [hm]
    · rw [List.filter_append, g3, fi3]; simp [hm]
  · rw [hb]
    rw [hcrash] at hm
    simp only [Flow.andThen]
    obtain ⟨ti, tp, te, tl, ttr, ft1, ft2, ft3⟩ := runTail_spec env b0 (runImport env s).2 s2
    have hupd : updatesCalls s2.ind = updatesCalls (runImport env s).1.ind := by
      unfold updatesCalls; rw [hc2, ht2]
    refine ⟨by rw [ti, hc2], by rw [tp, hm], by rw [te, hc2]; simp [hm],
      ie ++ gui ++ tl, ?_, ?_, ?_, ?_⟩
    · rw [ttr, hgt, hie]; simp
    · rw [List.filter_append, List.filter_append, g1, fi1, ft1]; simp
    · rw [List.filter_append, List.filter_append, g2, fi2, ft2, hc2, hp2]; simp [hm]
    · rw [List.filter_append, List.filter_append, g3, fi3, ft3, hc2, hupd]; simp [hm]

theorem runImport_fields (env : Env) (s : St) :
    (runImport env s).1.ind.Config.ActiveProxy = s.ind.Config.ActiveProxy ∧
    (runImport env s).1.ind.Config.EnableAutoChangeByIp = s.ind.Config.EnableAutoChangeByIp ∧
    (runImport env s).1.ind.Config.EnableUpdateCheck = s.ind.Config.EnableUpdateCheck ∧
    (runImport env s).1.ind.TestMode = s.ind.TestMode ∧
    (runImport env s).1.ind.Config.IndicatorAlreadyRun = true ∧
    (s.ind.Config.IndicatorAlreadyRun = true → (runImport env s).1.ind.Config = s.ind.Config) := by
  obtain ⟨_, hind, _⟩ := runImport_spec env s
  rw [hind]
  cases h : s.ind.Config.IndicatorAlreadyRun <;> simp [savedConfig, h]

theorem filter_isSave_eq (ev : List Event) :
    ev.filter Event.isSave = (ev.filter Event.isImportCall).filter Event.isSave := by
  rw [List.filter_filter]
  congr 1
  funext e
  cases e <;> rfl

theorem filter_isAddProxy_eq (ev : List Event) :
    ev.filter Event.isAddProxy = (ev.filter Event.isImportCall).filter Event.isAddProxy := by
  rw [List.filter_filter]
  congr 1
  funext e
  cases e <;> rfl

theorem savesCarryFlag_filter (ev : List Event) :
    savesCarryFlag ev = savesCarryFlag (ev.filter Event.isImportCall) := by
  induction ev with
  | nil => rfl
  | cons e es ih =>
    unfold savesCarryFlag at ih ⊢
    cases e <;>
      simp [List.filter_cons, Event.isImportCall, Event.isAddProxy, Event.isSave, ih]

/-! ## Startup -/

/-- C1, as the code has it.  `Run(setProxyNow = false)` never calls
`Config.SetActiveProxy`.  `Run(setProxyNow = true)`, unless building the menu
dereferences nil (the case `menuCrash`, in which `Run` makes no such call),
calls it exactly once, with reason "Startup": on the proxy just imported with
`force = true` when one was imported, on `Config.ActiveProxy` with
`force = false` when none was. -/
theorem startup_activation_once (env : Env) (s : St) :
    (newEvents s.trace (Run env s false).state.trace).filter Event.isSetActiveProxy = [] ∧
    (newEvents s.trace (Run env s true).state.trace).filter Event.isSetActiveProxy =
      (if menuCrash env s.ind then []
       else
        [match importedProxy env s.ind.Config with
          | some p => Event.SetActiveProxy (some p) "Startup" true
          | none => Event.SetActiveProxy s.ind.Config.ActiveProxy "Startup" false]) := by
  obtain ⟨ha, _⟩ := runImport_fields env s
  constructor
  · obtain ⟨_, _, _, ev, htr, _, h2, _⟩ := Run_spec env s false
    rw [htr, newEvents_append, h2]
    simp
  · obtain ⟨_, _, _, ev, htr, _, h2, _⟩ := Run_spec env s true
    rw [htr, newEvents_append, h2]
    unfold startupCall
    rw [ha]
    cases menuCrash env s.ind <;> cases importedProxy env s.ind.Config <;> simp

/-- C1, as stated, fails on the configuration `sampleConfig`, which has run
before so that nothing is imported: the one `SetActiveProxy` call of
`Run(setProxyNow = true)` has `force = false`, and no call with `force = true`
is made. -/
theorem startup_activation_unforced_without_import :
    (newEvents sampleState.trace (Run quietEnv sampleState true).state.trace).filter
        Event.isSetActiveProxy =
      [Event.SetActiveProxy sampleConfig.ActiveProxy "Startup" false] ∧
    Event.SetActiveProxy sampleConfig.ActiveProxy "Startup" true ∉
      (Run quietEnv sampleState true).state.trace := by
  decide

/-- C3. The flag `IndicatorAlreadyRun` gates the first-run import.  Among the
calls of `Run`, those of `Config.AddProxy` and `Config.Save` are: none when the
flag was set on entry; otherwise `AddProxy(false, p)` when a proxy `p` was
imported, followed by exactly one `Save`, called on the configuration with the
flag already set.  So `Save` is called once exactly when the flag was unset,
`AddProxy` at most once and only then, every `Save` carries the flag, the flag
is set when `Run` ends, and a `Run` entered with the flag set leaves the
configuration, the proxy list included, unchanged. -/
theorem first_run_import_gated (env : Env) (s : St) (setProxyNow : Bool) :
    (newEvents s.trace (Run env s setProxyNow).state.trace).filter Event.isImportCall =
      (if s.ind.Config.IndicatorAlreadyRun then []
       else (match importedProxy env s.ind.Config with
          | some p => [Event.AddProxy false p]
          | none => []) ++
         [Event.Save (savedConfig env s.ind.Config)
           (MyGettextv "Initial indicator configuration and proxy import" [])]) ∧
    countEv Event.isSave (newEvents s.trace (Run env s setProxyNow).state.trace) =
      (if s.ind.Config.IndicatorAlreadyRun then 0 else 1) ∧
    countEv Event.isAddProxy (newEvents s.trace (Run env s setProxyNow).state.trace) =
      (if s.ind.Config.IndicatorAlreadyRun then 0
       else if (importedProxy env s.ind.Config).isSome then 1 else 0) ∧
    savesCarryFlag (newEvents s.trace (Run env s setProxyNow).state.trace) = true ∧
    (savedConfig env s.ind.Config).IndicatorAlreadyRun = true ∧
    (Run env s setProxyNow).state.ind.Config.IndicatorAlreadyRun = true ∧
    (s.ind.Config.IndicatorAlreadyRun = false ∨
      (Run env s setProxyNow).state.ind.Config = s.ind.Config) := by
  obtain ⟨_, _, _, _, hflag, hsame⟩ := runImport_fields env s
  obtain ⟨hcfg, _, _, ev, htr, h1, _, _⟩ := Run_spec env s setProxyNow
  rw [htr, newEvents_append]
  refine ⟨h1, ?_, ?_, ?_, rfl, by rw [hcfg]; exact hflag, ?_⟩
  · unfold countEv
    rw [filter_isSave_eq, h1]
    cases s.ind.Config.IndicatorAlreadyRun <;> cases importedProxy env s.ind.Config <;>
      simp [Event.isSave, List.filter_cons]
  · unfold countEv
    rw [filter_isAddProxy_eq, h1]
    cases s.ind.Config.IndicatorAlreadyRun <;> cases importedProxy env s.ind.Config <;>
      simp [Event.isAddProxy, List.filter_cons]
  · rw [savesCarryFlag_filter, h1]
    cases s.ind.Config.IndicatorAlreadyRun <;> cases importedProxy env s.ind.Config <;>
      simp [savesCarryFlag, savedConfig]
  · cases h : s.ind.Config.IndicatorAlreadyRun with
    | false => exact Or.inl rfl
    | true => exact Or.inr (by rw [hcfg]; exact hsame h)

/-- C5, as the code has it.  Unless building the menu dereferences nil (the
case `menuCrash`): when automatic change by IP is enabled and
`CheckIpsThread.Start()` fails, `Run` returns that error wrapped with
"Error starting IP check thread" and makes no call on `CheckUpdatesThread`;
otherwise it registers the indicator with `CheckUpdatesThread.AddListener`
and, when update checks are enabled, calls `CheckUpdatesThread.Start()` once
(after a `Check()` in test mode), returning the wrapped error of that call when
it fails. -/
theorem startup_ips_failure_aborts_run (env : Env) (s : St) (setProxyNow : Bool) :
    (newEvents s.trace (Run env s setProxyNow).state.trace).filter Event.isUpdatesCall =
      (if menuCrash env s.ind then []
       else if ipsStartFails env s.ind.Config then []
       else updatesCalls s.ind) ∧
    (Run env s setProxyNow).error =
      (if menuCrash env s.ind then none
       else if ipsStartFails env s.ind.Config then env.IpsStart.map ipsStartError
       else if s.ind.Config.EnableUpdateCheck then env.UpdatesStart.map updatesStartError
       else none) := by
  obtain ⟨_, ha, hu, ht, _, _⟩ := runImport_fields env s
  obtain ⟨_, _, herr, ev, htr, _, _, h3⟩ := Run_spec env s setProxyNow
  rw [htr, newEvents_append, h3, herr]
  unfold startError ipsStartFails updatesCalls
  rw [ha, hu, ht]
  exact ⟨rfl, rfl⟩

/-- C5, as stated, fails on `sampleState`, where both checks are enabled, when
`CheckIpsThread.Start()` fails: `Run` returns the wrapped error and makes no
call on `CheckUpdatesThread`, neither `AddListener` nor `Start`. -/
theorem startup_ips_failure_skips_updates_thread :
    (newEvents sampleState.trace (Run failingIpsEnv sampleState true).state.trace).filter
        Event.isUpdatesCall = [] ∧
    Event.UpdatesAddListener ∉ (Run failingIpsEnv sampleState true).state.trace ∧
    Event.UpdatesStart ∉ (Run failingIpsEnv sampleState true).state.trace ∧
    (Run failingIpsEnv sampleState true).error = some (ipsStartError "already running") := by
  decide

/-! ## The label and the menu -/

/-- C6. The indicator label and the status item follow the last activation
result.  `UpdateLabel` makes the single call `SetLabel` on the label of
`labelSpec`: empty when the name is not shown; else the name of the proxy of
the last result (or "No proxy"), which carries the warning mark exactly when
that result counts errors; else, without a last result, the name of the active
proxy (or "No proxy"), unmarked.  Every menu `BuildMenu` hands to the app
indicator has exactly one status item; its label is `statusLabel`, which is the
cross label exactly when a last result exists and counts errors, the check
label exactly when one exists and counts none, and the plain label exactly
when none exists; and it was made insensitive exactly when none exists.  When
no GTK call fails, `BuildMenu` hands over exactly one menu. -/
theorem label_and_status_follow_last_result (env : Env) (s : St) :
    newEvents s.trace (UpdateLabel env s).trace =
      [Event.SetLabel (labelSpec env s.ind.Config)] ∧
    ((labelSpec env s.ind.Config).hasWarningMark = true ↔
      s.ind.Config.ShowCurrentProxyNameNextToIndicator = true ∧
        ∃ n, s.ind.Config.LastExecutionResults = some n ∧ 0 < env.GetNumberOfErrors n) ∧
    (∀ menu ∈ menusSet (newEvents s.trace (BuildMenu env s).state.trace),
      ∃ item, statusItems menu = [item] ∧ item.label = statusLabel env s.ind.Config ∧
        item.sensitive = statusSensitive s.ind.Config) ∧
    (noGtkErrors env s.ind.Config.Proxies.length = false ∨
      (menusSet (newEvents s.trace (BuildMenu env s).state.trace)).length = 1) ∧
    (statusLabel env s.ind.Config = MyGettextv "%v Status" ["✖"] ↔
      ∃ n, s.ind.Config.LastExecutionResults = some n ∧ 0 < env.GetNumberOfErrors n) ∧
    (statusLabel env s.ind.Config = MyGettextv "%v Status" ["✔"] ↔
      ∃ n, s.ind.Config.LastExecutionResults = some n ∧ env.GetNumberOfErrors n = 0) ∧
    (statusLabel env s.ind.Config = MyGettextv "Status" [] ↔
      s.ind.Config.LastExecutionResults = none) ∧
    (statusSensitive s.ind.Config = some false ↔ s.ind.Config.LastExecutionResults = none) := by
  refine ⟨?_, ?_, ?_, ?_, ?_, ?_, ?_, ?_⟩
  · rw [UpdateLabel_eq, emit_trace, newEvents_append]
  · unfold labelSpec
    cases s.ind.Config.ShowCurrentProxyNameNextToIndicator with
    | false => simp [Text.hasWarningMark]
    | true =>
      cases s.ind.Config.LastExecutionResults with
      | none =>
        cases ha : s.ind.Config.ActiveProxy <;>
          simp [markedName, Text.hasWarningMark, MyGettextv, ha]
      | some n =>
        by_cases h : 0 < env.GetNumberOfErrors n <;> cases hp : n.Proxy <;>
          simp [markedName, Text.hasWarningMark, MyGettextv, h, hp]
  · obtain ⟨_, _, _, _, evs, htr, _, hm⟩ := BuildMenu_spec env s
    rw [htr, newEvents_append]
    exact hm
  · cases h : noGtkErrors env s.ind.Config.Proxies.length with
    | false => exact Or.inl rfl
    | true =>
      obtain ⟨menu, s1, e1, t1, _⟩ := BuildMenu_ok env s h
      right
      rw [e1]
      simp [Flow.state, t1, newEvents_append, menusSet]
  · unfold statusLabel
    cases s.ind.Config.LastExecutionResults with
    | none => simp [MyGettextv]
    | some n => by_cases h : 0 < env.GetNumberOfErrors n <;> simp [MyGettextv, h]
  · unfold statusLabel
    cases s.ind.Config.LastExecutionResults with
    | none => simp [MyGettextv]
    | some n =>
      by_cases h : 0 < env.GetNumberOfErrors n
      · simp [MyGettextv, h]; omega
      · simp [MyGettextv, h]; omega
  · unfold statusLabel
    cases s.ind.Config.LastExecutionResults with
    | none => simp [MyGettextv]
    | some n => by_cases h : 0 < env.GetNumberOfErrors n <;> simp [MyGettextv, h]
  · unfold statusSensitive
    cases s.ind.Config.LastExecutionResults <;> simp

/-- C10. Manual selection is disabled exactly when automatic deactivation is in
force.  When no GTK call of `BuildMenu` fails, it hands over one menu, whose
radio items are those of `radioItemsSpec`: the "No proxy" item, then one item
per entry of `Config.Proxies` in list order, or the single placeholder
"No proxies defined" when the list is empty.  Every radio item but the
placeholder is insensitive exactly when `EnableAutoChangeByIp` is set and
`WhatToDoWhenNoIpMatches` is `DEACTIVATE_PROXY`, and sensitive otherwise; the
placeholder is insensitive; `SetActive(true)` was called on the "No proxy" item
exactly when `ActiveProxy` is nil and on a proxy item exactly when its proxy is
`ActiveProxy`. -/
theorem manual_selection_disabled_under_auto_deactivate (env : Env) (s : St)
    (h : noGtkErrors env s.ind.Config.Proxies.length = true) :
    ∃ menu, menusSet (newEvents s.trace (BuildMenu env s).state.trace) = [menu] ∧
      radioItems menu = radioItemsSpec env s.ind.Config ∧
      (∀ it ∈ radioItems menu, it ≠ placeholderItemSpec →
        ((it.sensitive = some false ↔
          s.ind.Config.EnableAutoChangeByIp = true ∧
            s.ind.Config.WhatToDoWhenNoIpMatches = env.DEACTIVATE_PROXY) ∧
         (it.sensitive = some true ↔
          ¬ (s.ind.Config.EnableAutoChangeByIp = true ∧
            s.ind.Config.WhatToDoWhenNoIpMatches = env.DEACTIVATE_PROXY)))) ∧
      placeholderItemSpec.sensitive = some false ∧
      (radioItems menu).map (fun it => it.label) =
        MyGettextv "No proxy" [] ::
          (match s.ind.Config.Proxies with
           | [] => [MyGettextv "No proxies defined" []]
           | p :: ps => (p :: ps).map (fun q => Text.lit q.Name)) ∧
      (radioItems menu).map (fun it => it.active) =
        s.ind.Config.ActiveProxy.isNone ::
          (match s.ind.Config.Proxies with
           | [] => [false]
           | p :: ps => (p :: ps).map (fun q => ptrEq s.ind.Config.ActiveProxy q)) := by
  obtain ⟨menu, s1, e1, t1, hr⟩ := BuildMenu_ok env s h
  refine ⟨menu, ?_, hr, ?_, rfl, ?_, ?_⟩
  · rw [e1]
    simp [Flow.state, t1, newEvents_append, menusSet]
  · rw [hr]
    intro it hmem hne
    unfold radioItemsSpec at hmem
    rcases List.mem_cons.1 hmem with rfl | hmem
    · cases hE : s.ind.Config.EnableAutoChangeByIp <;> simp [noProxyItemSpec, hE]
    · cases hps : s.ind.Config.Proxies with
      | nil =>
        rw [hps] at hmem
        simp at hmem
        exact absurd hmem hne
      | cons p ps =>
        rw [hps] at hmem
        obtain ⟨q, _, rfl⟩ := List.mem_map.1 hmem
        cases hE : s.ind.Config.EnableAutoChangeByIp <;> simp [proxyItemSpec, hE]
  · rw [hr]
    unfold radioItemsSpec
    cases s.ind.Config.Proxies with
    | nil => rfl
    | cons p ps => simp [noProxyItemSpec, proxyItemSpec]
  · rw [hr]
    unfold radioItemsSpec
    cases s.ind.Config.Proxies with
    | nil => rfl
    | cons p ps => simp [noProxyItemSpec, proxyItemSpec]

/-- C10 at `autoDeactivateState`, where automatic deactivation is in force and
no GTK call fails. -/
theorem manual_selection_disabled_under_auto_deactivate_witness :
    noGtkErrors quietEnv autoDeactivateState.ind.Config.Proxies.length = true ∧
    ∃ menu, menusSet (newEvents autoDeactivateState.trace
        (BuildMenu quietEnv autoDeactivateState).state.trace) = [menu] ∧
      radioItems menu = radioItemsSpec quietEnv autoDeactivateState.ind.Config ∧
      (∀ it ∈ radioItems menu, it ≠ placeholderItemSpec →
        ((it.sensitive = some false ↔
          autoDeactivateState.ind.Config.EnableAutoChangeByIp = true ∧
            autoDeactivateState.ind.Config.WhatToDoWhenNoIpMatches = quietEnv.DEACTIVATE_PROXY) ∧
         (it.sensitive = some true ↔
          ¬ (autoDeactivateState.ind.Config.EnableAutoChangeByIp = true ∧
            autoDeactivateState.ind.Config.WhatToDoWhenNoIpMatches =
              quietEnv.DEACTIVATE_PROXY)))) ∧
      placeholderItemSpec.sensitive = some false ∧
      (radioItems menu).map (fun it => it.label) =
        MyGettextv "No proxy" [] ::
          (match autoDeactivateState.ind.Config.Proxies with
           | [] => [MyGettextv "No proxies defined" []]
           | p :: ps => (p :: ps).map (fun q => Text.lit q.Name)) ∧
      (radioItems menu).map (fun it => it.active) =
        autoDeactivateState.ind.Config.ActiveProxy.isNone ::
          (match autoDeactivateState.ind.Config.Proxies with
           | [] => [false]
           | p :: ps =>
             (p :: ps).map (fun q => ptrEq autoDeactivateState.ind.Config.ActiveProxy q)) :=
  ⟨by decide, manual_selection_disabled_under_auto_deactivate quietEnv autoDeactivateState
    (by decide)⟩

end ProxyChanger
